import Mathlib

/-!
# Verification of the ARRS analysis pipeline

A shallow embedding of the ARRS (AI Readiness & Recommendation Score)
analysis pipeline: the multi-engine scoring framework
(`arrs/engines/ade/engine.py`, `arrs/engines/arce/engine.py`,
`arrs/engines/tre/engine.py`), the parsers' derived summaries
(`arrs/parsers/html_parser.py`, `arrs/parsers/schema_parser.py`),
the composite scorer and orchestrator control flow
(`arrs/core/orchestrator.py`), gap ordering as exposed by the
repository and the report generator (`arrs/storage/repository.py`,
`arrs/reporting/report_generator.py`).

Modelling conventions:
* Python `float` arithmetic is modelled exactly over `ℚ`; the numeric
  claims under study are interval bounds and exact identities that are
  insensitive to binary floating point rounding at these magnitudes.
* Python `round(x, 2)` is modelled as rounding half-up to two decimals
  (`round_2`); no claim under study depends on the tie-breaking
  direction of the rounding.
* `str` truthiness (`if s:`) is emptiness of the string; `None` is
  `Option.none`.
* uuid identifiers and timestamps carried by the records are opaque to
  every property under study and are omitted from the embedded records.
* Calls into third-party libraries (`textstat.flesch_reading_ease`,
  the `re` regex searches) are modelled as opaque input values carried
  by the content record, since their implementation is outside the
  repository; the repository code consumes only their results.
-/

namespace Arrs

/-! ## Scoring primitives (`arrs/engines/base/scoring_utils.py`) -/

/-- `calculate_richness_score` from `scoring_utils.py`:
`min(1, len(content)/benchmark_chars) * max_points`. -/
def calculate_richness_score (content : String) (benchmarkChars : ℕ) (maxPoints : ℚ) : ℚ :=
  min 1 ((content.length : ℚ) / (benchmarkChars : ℚ)) * maxPoints

/-! ## Data model (`arrs/models/score_result.py`, `arrs/models/analysis.py`) -/

/-- `AnalysisStatus` enumeration. -/
inductive AnalysisStatus
  | pending
  | processing
  | completed
  | failed
deriving DecidableEq, Repr

/-- The analysis record's mutable columns (`analyses` table): status,
nullable composite score, nullable error message. -/
structure AnalysisRecord where
  status : AnalysisStatus
  compositeScore : Option ℚ
  errorMessage : Option String
deriving DecidableEq, Repr

/-- One engine's score for one analysis (`EngineScore` dataclass;
uuid/timestamp/details omitted as opaque). -/
structure EngineScore where
  engineName : String
  score : ℚ
  weight : ℚ
deriving DecidableEq, Repr

/-- One actionable deficiency (`Gap` dataclass; uuid and analysis id
omitted as opaque). -/
structure Gap where
  gapType : String
  severity : String
  description : String
  recommendation : String
  engineSource : String
deriving DecidableEq, Repr

/-! ## Composite scorer (`AnalysisOrchestrator._calculate_composite_score`) -/

/-- Rounding to two decimal places: the model of Python `round(x, 2)`
(half-up; ties do not matter to any claim under study). -/
def round_2 (q : ℚ) : ℚ := (⌊q * 100 + 1 / 2⌋ : ℚ) / 100

/-- `sum(score.weight for score in engine_scores)`. -/
def total_weight (scores : List EngineScore) : ℚ :=
  (scores.map (fun s => s.weight)).sum

/-- `sum(score.score * score.weight for score in engine_scores)`. -/
def weighted_sum (scores : List EngineScore) : ℚ :=
  (scores.map (fun s => s.score * s.weight)).sum

/-- `AnalysisOrchestrator._calculate_composite_score`: weighted mean of
the engine scores rounded to two decimals, `0.0` when the total weight
is zero. -/
def calculate_composite_score (scores : List EngineScore) : ℚ :=
  if total_weight scores = 0 then 0
  else round_2 (weighted_sum scores / total_weight scores)

/-! ## HTML parser summaries (`arrs/parsers/html_parser.py`) -/

/-- Result of `HTMLParser.validate_heading_hierarchy`. -/
structure HeadingValidation where
  hasH1 : Bool
  h1Count : ℕ
  multipleH1 : Bool
  skippedLevels : List (ℕ × ℕ)
  validHierarchy : Bool
deriving DecidableEq, Repr

/-- The skipped-level pairs: consecutive entries of the heading-level
list whose difference exceeds one (`validate_heading_hierarchy`, the
`for i in range(len(levels) - 1)` loop). -/
def skipped_pairs : List ℕ → List (ℕ × ℕ)
  | a :: b :: rest => (if a + 1 < b then [(a, b)] else []) ++ skipped_pairs (b :: rest)
  | _ => []

/-- `HTMLParser.validate_heading_hierarchy` over the list of heading
levels produced by `extract_headings` (the parser emits all `h1`s, then
all `h2`s, and so on; the argument is that list). -/
def validate_heading_hierarchy (levels : List ℕ) : HeadingValidation :=
  let h1Count := levels.count 1
  let hasH1 := decide (0 < h1Count)
  let skipped := skipped_pairs levels
  { hasH1 := hasH1
    h1Count := h1Count
    multipleH1 := decide (1 < h1Count)
    skippedLevels := skipped
    validHierarchy := hasH1 && decide (h1Count = 1) && skipped.isEmpty }

/-- One `<img>` record as extracted by `HTMLParser.extract_images`
(only the `alt` attribute is consumed by the engines). -/
structure ImageData where
  alt : String
deriving DecidableEq, Repr

/-- The `html` half of the orchestrator's `parsed_data` dict, as built
by `HTMLParser.parse` plus the `heading_validation` entry.
`fleschReadingEase` is the value of
`textstat.flesch_reading_ease(text_content)` (a third-party library:
its output is modelled as an input; the published formula is unbounded
below for long-sentence text), and `emailFound` / `phoneFound` are the
results of the `re.search` calls of `TREEngine._detect_email` /
`_detect_phone` on the text (the regex engine is the standard
library). -/
structure HtmlData where
  title : String
  metaDescription : String
  headingLevels : List ℕ
  images : List ImageData
  textContent : String
  semanticCounts : List ℕ
  metadata : List (String × String)
  fleschReadingEase : ℚ
  emailFound : Bool
  phoneFound : Bool
deriving DecidableEq, Repr

/-! ## Schema parser summaries (`arrs/parsers/schema_parser.py`) -/

/-- One resolved offer (`extract_offers` entry); only truthiness of
`price` and `priceCurrency` is consumed. -/
structure OfferData where
  hasPrice : Bool
  hasCurrency : Bool
deriving DecidableEq, Repr

/-- A resolved Product schema. Each Boolean field is the truthiness of
the corresponding key of the extracted dict; `description` is kept as a
string because its length is consumed. -/
structure ProductSchema where
  namePresent : Bool
  description : String
  imagePresent : Bool
  brandPresent : Bool
  offers : List OfferData
  sku : Bool
  gtin : Bool
  mpn : Bool
  aggregateRating : Bool
  review : Bool
deriving DecidableEq, Repr

/-- Result of `SchemaParser.validate_product_schema`. -/
structure ProductValidation where
  present : Bool
  completeness : ℚ
  missingFields : List String
  fieldCount : ℕ
deriving DecidableEq, Repr

/-- The ten recommended fields of `validate_product_schema`. -/
def recommended_fields : List String :=
  ["name", "image", "description", "brand", "offers",
   "sku", "gtin", "mpn", "aggregateRating", "review"]

/-- Truthiness of one recommended field of the Product schema
(`field in product_schema and product_schema[field]`). -/
def product_field_present (p : ProductSchema) : String → Bool
  | "name" => p.namePresent
  | "image" => p.imagePresent
  | "description" => !p.description.isEmpty
  | "brand" => p.brandPresent
  | "offers" => !p.offers.isEmpty
  | "sku" => p.sku
  | "gtin" => p.gtin
  | "mpn" => p.mpn
  | "aggregateRating" => p.aggregateRating
  | "review" => p.review
  | _ => false

/-- `SchemaParser.validate_product_schema`: completeness is the count
of present recommended fields over ten. -/
def validate_product_schema (product : Option ProductSchema) : ProductValidation :=
  match product with
  | none =>
    { present := false
      completeness := 0
      missingFields := recommended_fields
      fieldCount := 0 }
  | some p =>
    let present := recommended_fields.filter (fun f => product_field_present p f)
    let missing := recommended_fields.filter (fun f => !product_field_present p f)
    { present := true
      completeness := (present.length : ℚ) / (recommended_fields.length : ℚ)
      missingFields := missing
      fieldCount := present.length }

/-- The `schema` half of the orchestrator's `parsed_data` dict.
`product` is `find_product_schema` (None when no Product schema was
found); `brandInfo` is `extract_brand_info`. The entries `offers`,
`reviews` and `product_validation` are derived below exactly as the
parser derives them. -/
structure SchemaData where
  product : Option ProductSchema
  brandInfo : Option String
deriving DecidableEq, Repr

/-- `SchemaParser.extract_offers`: the Product schema's offers, `[]`
when there is no Product schema. -/
def extract_offers (sd : SchemaData) : List OfferData :=
  match sd.product with
  | none => []
  | some p => p.offers

/-- The `has_reviews` flag of `SchemaParser.extract_reviews`:
`bool(aggregate_rating or reviews)`. -/
def has_reviews (sd : SchemaData) : Bool :=
  match sd.product with
  | none => false
  | some p => p.aggregateRating || p.review

/-- The orchestrator's `parsed_data` argument to the engines. -/
structure ParsedData where
  html : HtmlData
  schema : SchemaData
deriving DecidableEq, Repr

/-! ## Python string helpers -/

/-- Python string truthiness of an optional string (`None` and the
empty string are falsy). -/
def py_truthy : Option String → Bool
  | none => false
  | some s => !s.isEmpty

/-- Character-list prefix test (auxiliary for the substring test). -/
def chars_pref : List Char → List Char → Bool
  | [], _ => true
  | _ :: _, [] => false
  | a :: as, b :: bs => a == b && chars_pref as bs

/-- Character-list substring test (auxiliary for `py_in`). -/
def chars_sub (needle : List Char) : List Char → Bool
  | [] => needle.isEmpty
  | c :: rest => chars_pref needle (c :: rest) || chars_sub needle rest

/-- The Python substring test `needle in hay`. -/
def py_in (needle hay : String) : Bool :=
  chars_sub needle.data hay.data

/-- Python `str.lower()` (ASCII lowering suffices for the keyword
vocabularies under study). -/
def py_lower (s : String) : String := String.mk (s.data.map Char.toLower)

/-- Byte-wise (equivalently, code-point-wise) lexicographic comparison
of two character lists; the order SQLite's default BINARY collation
gives to ASCII text. -/
def char_list_le : List Char → List Char → Bool
  | [], _ => true
  | _ :: _, [] => false
  | a :: as, b :: bs =>
    if a < b then true
    else if b < a then false
    else char_list_le as bs

/-! ## ADE — Attribute Density Engine (`arrs/engines/ade/engine.py`) -/

/-- The score and the `details` entries of `ADEEngine.analyze` that are
consumed downstream (`identify_gaps`). -/
structure AdeResult where
  score : ℚ
  schemaCompletenessScore : ℚ
  attributeRichnessScore : ℚ
  imageQualityScore : ℚ
  technicalSpecsScore : ℚ
  productSchemaPresent : Bool
  descriptionLength : ℕ
  imageCount : ℕ
deriving DecidableEq, Repr

/-- `ADEEngine._score_schema_completeness`: Product-schema completeness
ratio times 40, or 0 when absent. -/
def ade_score_schema_completeness (sd : SchemaData) : ℚ :=
  let validation := validate_product_schema sd.product
  if validation.present then validation.completeness * 40 else 0

/-- `ADEEngine._score_attribute_richness`. The source evaluates
`schema_data.get('product', {}).get('description', '')`; when no
Product schema was found the parsed dict holds `None` under the
`'product'` key (the `.get` default does not apply to a present key),
so `None.get(...)` raises `AttributeError` and `analyze` fails. -/
def ade_score_attribute_richness (sd : SchemaData) (hd : HtmlData) : Except String ℚ :=
  match sd.product with
  | none => .error "AttributeError: 'NoneType' object has no attribute 'get'"
  | some p =>
    let description := if !p.description.isEmpty then p.description else hd.metaDescription
    let descScore := calculate_richness_score description 300 15
    let hasBrand := py_truthy sd.brandInfo
    let hasSku := p.sku || p.gtin || p.mpn
    let attributeScore := (if hasBrand then (15 : ℚ) / 2 else 0) +
      (if hasSku then (15 : ℚ) / 2 else 0)
    .ok (descScore + attributeScore)

/-- `ADEEngine._score_image_quality`: image-count score capped at four
images plus alt-text coverage ratio times ten; 0 with no images. -/
def ade_score_image_quality (hd : HtmlData) : ℚ :=
  if hd.images.isEmpty then 0
  else
    let imageCountScore := min 10 ((hd.images.length : ℚ) * (5 / 2))
    let withAlt := (hd.images.filter (fun img => !img.alt.isEmpty)).length
    let altScore := ((withAlt : ℚ) / (hd.images.length : ℚ)) * 10
    imageCountScore + altScore

/-- The fixed spec-keyword vocabulary of
`ADEEngine._score_technical_specs`. -/
def spec_keywords : List String :=
  ["specification", "dimensions", "weight", "material",
   "features", "technical", "details", "capacity", "size"]

/-- `ADEEngine._score_technical_specs`: two points per keyword hit in
the lowered text, capped at ten. -/
def ade_score_technical_specs (hd : HtmlData) : ℚ :=
  let text := py_lower hd.textContent
  let specMentions := (spec_keywords.filter (fun k => py_in k text)).length
  min 10 ((specMentions : ℚ) * 2)

/-- `ADEEngine.analyze`: the sum of the four sub-scores plus the
details map; fails (AttributeError) when there is no Product schema,
at the `_score_attribute_richness` call. -/
def ade_analyze (sd : SchemaData) (hd : HtmlData) : Except String AdeResult :=
  let schemaScore := ade_score_schema_completeness sd
  match ade_score_attribute_richness sd hd with
  | .error m => .error m
  | .ok richnessScore =>
    let imageScore := ade_score_image_quality hd
    let specsScore := ade_score_technical_specs hd
    let descriptionLength :=
      match sd.product with
      | some p => p.description.length
      | none => 0
    .ok { score := schemaScore + richnessScore + imageScore + specsScore
          schemaCompletenessScore := schemaScore
          attributeRichnessScore := richnessScore
          imageQualityScore := imageScore
          technicalSpecsScore := specsScore
          productSchemaPresent := (validate_product_schema sd.product).present
          descriptionLength := descriptionLength
          imageCount := hd.images.length }

/-- `ADEEngine.identify_gaps`: missing-schema, missing critical field,
short description and no-image gaps, in source order. The
short-description rule reads `score.details['description_length']`. -/
def ade_identify_gaps (res : AdeResult) (sd : SchemaData) (_hd : HtmlData) : List Gap :=
  let validation := validate_product_schema sd.product
  (if !validation.present then
    [{ gapType := "missing_schema", severity := "critical"
       description := "Product schema.org markup is missing"
       recommendation := "Add Product schema.org markup using JSON-LD format to help AI understand product attributes"
       engineSource := "ADE" }]
   else []) ++
  (["name", "description", "image", "offers"].filter
      (fun f => validation.missingFields.contains f)).map
    (fun f =>
      { gapType := "missing_field_" ++ f, severity := "high"
        description := "Product schema missing " ++ f ++ " field"
        recommendation := "Add " ++ f ++ " to Product schema for better AI attribute extraction"
        engineSource := "ADE" }) ++
  (if res.descriptionLength < 100 then
    [{ gapType := "short_description", severity := "medium"
       description := "Product description is too short (" ++
         toString res.descriptionLength ++ " characters)"
       recommendation := "Expand product description to at least 300 characters with detailed attributes and benefits"
       engineSource := "ADE" }]
   else []) ++
  (if res.imageCount = 0 then
    [{ gapType := "no_images", severity := "high"
       description := "No product images found"
       recommendation := "Add product images with descriptive alt text"
       engineSource := "ADE" }]
   else [])

/-! ## ARCE — AI Readability & Composability Engine (`arrs/engines/arce/engine.py`) -/

/-- `count_semantic_html_tags` from `scoring_utils.py`: the sum of the
semantic-element counts. -/
def count_semantic_html_tags (hd : HtmlData) : ℕ :=
  hd.semanticCounts.sum

/-- `ARCEEngine._score_semantic_html`: three points per semantic
element, capped at 30. -/
def arce_score_semantic_html (hd : HtmlData) : ℚ :=
  min 30 ((count_semantic_html_tags hd : ℚ) * 3)

/-- `ARCEEngine._score_readability`: 0 for text under 100 characters,
then a piecewise map of the Flesch reading-ease value. -/
def arce_score_readability (hd : HtmlData) : ℚ :=
  if hd.textContent.length < 100 then 0
  else
    let fleschScore := hd.fleschReadingEase
    if 60 ≤ fleschScore then 25
    else if 30 ≤ fleschScore then (fleschScore / 60) * 25
    else (fleschScore / 30) * (25 / 2)

/-- `ARCEEngine._score_heading_hierarchy`: 10 for `has_h1`, 10 for
`not multiple_h1`, 5 for no skipped levels. -/
def arce_score_heading_hierarchy (v : HeadingValidation) : ℚ :=
  (if v.hasH1 then 10 else 0) +
  (if !v.multipleH1 then 10 else 0) +
  (if v.skippedLevels.isEmpty then 5 else 0)

/-- The count of `og_`-prefixed metadata keys
(`ARCEEngine._score_metadata`). -/
def og_tag_count (hd : HtmlData) : ℕ :=
  (hd.metadata.filter (fun kv => chars_pref "og_".data kv.1.data)).length

/-- Truthiness of `metadata.get('canonical_url')`. -/
def has_canonical (hd : HtmlData) : Bool :=
  py_truthy (hd.metadata.lookup "canonical_url")

/-- `ARCEEngine._score_metadata`: 5 each for title, meta description,
at least three Open Graph tags, canonical URL. -/
def arce_score_metadata (hd : HtmlData) : ℚ :=
  (if !hd.title.isEmpty then 5 else 0) +
  (if !hd.metaDescription.isEmpty then 5 else 0) +
  (if 3 ≤ og_tag_count hd then 5 else 0) +
  (if has_canonical hd then 5 else 0)

/-- `ARCEEngine.analyze`: total score (the engine never raises; the
textstat call is guarded by `try/except`). -/
def arce_analyze (hd : HtmlData) : ℚ :=
  arce_score_semantic_html hd + arce_score_readability hd +
    arce_score_heading_hierarchy (validate_heading_hierarchy hd.headingLevels) +
    arce_score_metadata hd

/-! ## TRE — Transaction Readiness Engine (`arrs/engines/tre/engine.py`) -/

/-- The buy-intent keyword vocabulary of `TREEngine._detect_buy_button`. -/
def buy_keywords : List String :=
  ["add to cart", "add to bag", "buy now", "purchase",
   "checkout", "order now", "add to basket", "buy"]

/-- `TREEngine._detect_buy_button`: any buy keyword occurs in the
lowered text. -/
def detect_buy_button (hd : HtmlData) : Bool :=
  buy_keywords.any (fun k => py_in k (py_lower hd.textContent))

/-- `TREEngine._score_cta_presence`: 15 for a buy keyword, 15 for an
offer plus a 5-point bonus for a complete first offer, capped at 30. -/
def tre_score_cta_presence (hd : HtmlData) (sd : SchemaData) : ℚ :=
  let base : ℚ := if detect_buy_button hd then 15 else 0
  let offers := extract_offers sd
  let withOffers :=
    match offers with
    | [] => base
    | offer :: _ =>
      base + 15 + (if offer.hasPrice && offer.hasCurrency then 5 else 0)
  min 30 withOffers

/-- The return-policy keyword vocabulary of
`TREEngine._score_trust_signals`. -/
def policy_keywords : List String :=
  ["return policy", "returns", "refund", "money back", "guarantee"]

/-- `TREEngine._score_trust_signals`: 10 for HTTPS, 10 for reviews, 10
for a policy keyword. -/
def tre_score_trust_signals (hd : HtmlData) (sd : SchemaData) (url : String) : ℚ :=
  (if chars_pref "https://".data url.data then 10 else 0) +
  (if has_reviews sd then 10 else 0) +
  (if policy_keywords.any (fun k => py_in k (py_lower hd.textContent)) then 10 else 0)

/-- The address keyword vocabulary of `TREEngine._score_contact_info`. -/
def address_keywords : List String :=
  ["address", "contact us", "location", "visit us"]

/-- `TREEngine._score_contact_info`: 7 for an email match, 7 for a
phone match, 6 for an address keyword. -/
def tre_score_contact_info (hd : HtmlData) : ℚ :=
  (if hd.emailFound then 7 else 0) +
  (if hd.phoneFound then 7 else 0) +
  (if address_keywords.any (fun k => py_in k (py_lower hd.textContent)) then 6 else 0)

/-- The payment keyword vocabulary of
`TREEngine._score_payment_shipping_info`. -/
def payment_keywords : List String :=
  ["visa", "mastercard", "paypal", "payment", "credit card",
   "debit card", "apple pay", "google pay"]

/-- The shipping keyword vocabulary of
`TREEngine._score_payment_shipping_info`. -/
def shipping_keywords : List String :=
  ["shipping", "delivery", "free shipping", "ships to",
   "ship", "express delivery"]

/-- `TREEngine._score_payment_shipping_info`: 10 for a payment keyword,
10 for a shipping keyword. -/
def tre_score_payment_shipping (hd : HtmlData) : ℚ :=
  (if payment_keywords.any (fun k => py_in k (py_lower hd.textContent)) then 10 else 0) +
  (if shipping_keywords.any (fun k => py_in k (py_lower hd.textContent)) then 10 else 0)

/-- `TREEngine.analyze`: total score (the engine never raises). -/
def tre_analyze (hd : HtmlData) (sd : SchemaData) (url : String) : ℚ :=
  tre_score_cta_presence hd sd + tre_score_trust_signals hd sd url +
    tre_score_contact_info hd + tre_score_payment_shipping hd

/-! ## Report generator ordering (`ReportGenerator._prioritize_recommendations`) -/

/-- The `severity_order` dict (`critical 0, high 1, medium 2, low 3`),
with the `.get(..., 99)` default. -/
def severity_rank (g : Gap) : ℕ :=
  if g.severity = "critical" then 0
  else if g.severity = "high" then 1
  else if g.severity = "medium" then 2
  else if g.severity = "low" then 3
  else 99

/-- The sort key relation used by `sorted(gaps, key=...)`; Python's
`sorted` is a stable sort, modelled by `List.insertionSort`. -/
def rank_le (a b : Gap) : Prop := severity_rank a ≤ severity_rank b

instance : DecidableRel rank_le := fun _ _ => Nat.decLe _ _

instance : IsTotal Gap rank_le := ⟨fun _ _ => Nat.le_total _ _⟩

instance : IsTrans Gap rank_le := ⟨fun _ _ _ => Nat.le_trans⟩

/-- The stable severity-rank sort performed by
`_prioritize_recommendations`. -/
def sort_by_rank (gaps : List Gap) : List Gap :=
  List.insertionSort rank_le gaps

/-- One emitted recommendation entry of
`_prioritize_recommendations`. -/
structure Recommendation where
  priority : ℕ
  severity : String
  issue : String
  action : String
  impact : String
deriving DecidableEq, Repr

/-- `ReportGenerator._prioritize_recommendations`: stable sort by
severity rank, take the first ten, number them from one. -/
def prioritize_recommendations (gaps : List Gap) : List Recommendation :=
  ((sort_by_rank gaps).take 10).enum.map
    (fun ig =>
      { priority := ig.1 + 1
        severity := ig.2.severity
        issue := ig.2.description
        action := ig.2.recommendation
        impact := if ig.2.severity = "critical" ∨ ig.2.severity = "high"
          then "High" else "Medium" })

/-! ## Repository gap ordering (`Repository.get_gaps`) -/

/-- The SQL `ORDER BY severity` comparison: SQLite's default BINARY
collation is a byte-wise comparison of the UTF-8 text, i.e. the
lexicographic string order (the severity labels are ASCII). The order
of rows with equal severity is left unspecified by SQLite; it is
modelled here as insertion order, and no property under study depends
on that choice. -/
def severity_text_le (a b : Gap) : Prop :=
  char_list_le a.severity.data b.severity.data = true

instance : DecidableRel severity_text_le := fun _ _ => instDecidableEqBool _ _

instance : IsTotal Gap severity_text_le := by
  constructor
  intro x y
  unfold severity_text_le
  generalize x.severity.data = as
  generalize y.severity.data = bs
  induction as generalizing bs with
  | nil => left; rfl
  | cons a as ih =>
    cases bs with
    | nil => right; rfl
    | cons b bs =>
      simp only [char_list_le]
      rcases lt_trichotomy a b with h | h | h
      · left; rw [if_pos h]
      · subst h
        simpa [lt_irrefl] using ih bs
      · right; rw [if_pos h]

instance : IsTrans Gap severity_text_le := by
  constructor
  intro x y z hxy hyz
  unfold severity_text_le at hxy hyz ⊢
  revert hxy hyz
  generalize x.severity.data = as
  generalize y.severity.data = bs
  generalize z.severity.data = cs
  intro hxy hyz
  induction as generalizing bs cs with
  | nil => rfl
  | cons a as ih =>
    cases bs with
    | nil => exact absurd hxy (by simp [char_list_le])
    | cons b bs =>
      cases cs with
      | nil => exact absurd hyz (by simp [char_list_le])
      | cons c cs =>
        simp only [char_list_le] at hxy hyz ⊢
        rcases lt_trichotomy a b with hab | hab | hab
        · rcases lt_trichotomy b c with hbc | hbc | hbc
          · rw [if_pos (lt_trans hab hbc)]
          · subst hbc; rw [if_pos hab]
          · rw [if_neg (not_lt_of_gt hbc), if_pos hbc] at hyz
            exact absurd hyz (by simp)
        · subst hab
          rw [if_neg (lt_irrefl a), if_neg (lt_irrefl a)] at hxy
          rcases lt_trichotomy a c with hac | hac | hac
          · rw [if_pos hac]
          · subst hac
            rw [if_neg (lt_irrefl a), if_neg (lt_irrefl a)] at hyz ⊢
            exact ih bs cs hxy hyz
          · rw [if_neg (not_lt_of_gt hac), if_pos hac] at hyz
            exact absurd hyz (by simp)
        · rw [if_neg (not_lt_of_gt hab), if_pos hab] at hxy
          exact absurd hxy (by simp)

/-- `Repository.get_gaps`: the stored gaps ordered by the raw severity
string (`... ORDER BY severity`). -/
def get_gaps_ordered (gaps : List Gap) : List Gap :=
  List.insertionSort severity_text_le gaps

/-! ## Orchestrator pipeline (`AnalysisOrchestrator.analyze_url`) -/

/-- The crawler-independent payload of a successful fetch. -/
structure RawFetch where
  url : String
  htmlContent : String
  statusCode : ℕ
deriving DecidableEq, Repr

/-- A crawled-content record (`CrawledContent` dataclass; uuid,
timestamp and the parser-populated convenience fields omitted). -/
structure CrawledContent where
  url : String
  htmlContent : String
  crawlMethod : String
  statusCode : ℕ
deriving DecidableEq, Repr

/-- A simulation result (`SimulationResult` dataclass; only the fields
the gap extraction consumes are kept). -/
structure SimulationResult where
  brandCited : Bool
  citationCount : ℕ
  missingSignals : List String
deriving DecidableEq, Repr

/-- The environment-determined behaviour of one scoring engine for one
run: its configured name and weight, whether `analyze` returns a score
or raises, and whether `identify_gaps` returns gaps or raises. -/
structure EngineBehavior where
  name : String
  weight : ℚ
  analyzeResult : Except String ℚ
  gapsResult : Except String (List Gap)
deriving Repr

/-- Whether each repository write succeeds during the run (`true`) or
raises a persistence error (`false`). A raising write leaves the store
unchanged. -/
structure RepoBehavior where
  updateStatusProcessing : Bool
  saveCrawledContent : Bool
  saveEngineScore : Bool
  updateCompositeScore : Bool
  saveSimulationResult : Bool
  saveGaps : Bool
  updateStatusCompleted : Bool
  updateStatusFailed : Bool
deriving DecidableEq, Repr

/-- The environment of one `analyze_url` run: the collaborator results
(fetches, extraction, engines, simulation) and the repository's write
behaviour. `parseResult` is the outcome of the extraction step, whose
payload the engines consume only through their own behaviours here. -/
structure PipelineEnv where
  url : String
  primaryFetch : Except String RawFetch
  fallbackFetch : Except String RawFetch
  parseResult : Except String Unit
  engines : List EngineBehavior
  simulatorConfigured : Bool
  brand : Option String
  productCategory : Option String
  useCase : Option String
  simulateResult : Except String SimulationResult
  repo : RepoBehavior

/-- The observable outcome of one run: the analysis record's final
columns, the artifacts committed to the store, and whether the
coroutine returned or raised. -/
structure PipelineOutcome where
  record : AnalysisRecord
  savedScores : List EngineScore
  savedGaps : List Gap
  savedCrawled : Option CrawledContent
  savedSimulation : Option SimulationResult
  result : Except String Unit
deriving Repr

/-- The crawled-content record `BeautifulSoupCrawler.crawl` builds on
success: its fixed method tag is `beautifulsoup`. -/
def beautifulsoup_content (r : RawFetch) : CrawledContent :=
  { url := r.url, htmlContent := r.htmlContent
    crawlMethod := "beautifulsoup", statusCode := r.statusCode }

/-- The crawled-content record `PlaywrightCrawler.crawl` builds on
success: its fixed method tag is `playwright`. -/
def playwright_content (r : RawFetch) : CrawledContent :=
  { url := r.url, htmlContent := r.htmlContent
    crawlMethod := "playwright", statusCode := r.statusCode }

/-- `AnalysisOrchestrator._crawl_url`: BeautifulSoup first, Playwright
on failure; when both fail,
`CrawlerException(f"Failed to crawl {url}: {playwright_error}")`. -/
def crawl_url (env : PipelineEnv) : Except String CrawledContent :=
  match env.primaryFetch with
  | .ok r => .ok (beautifulsoup_content r)
  | .error _ =>
    match env.fallbackFetch with
    | .ok r => .ok (playwright_content r)
    | .error e2 => .error ("Failed to crawl " ++ env.url ++ ": " ++ e2)

/-- `AnalysisOrchestrator._run_engines`: each engine runs in turn; a
raising engine is logged and skipped, a succeeding one contributes an
`EngineScore` built by `BaseEngine.create_score` from its name, score
and configured weight. -/
def run_engines (engines : List EngineBehavior) : List EngineScore :=
  engines.filterMap (fun e =>
    match e.analyzeResult with
    | .ok s => some { engineName := e.name, score := s, weight := e.weight }
    | .error _ => none)

/-- Step 7 of `analyze_url`: `identify_gaps` is awaited for each
successfully scored engine, in order, with no per-engine handler — the
first raising call aborts the run. -/
def collect_engine_gaps : List EngineBehavior → Except String (List Gap)
  | [] => .ok []
  | e :: rest =>
    match e.analyzeResult with
    | .error _ => collect_engine_gaps rest
    | .ok _ =>
      match e.gapsResult with
      | .error m => .error m
      | .ok gs =>
        match collect_engine_gaps rest with
        | .error m => .error m
        | .ok tailGaps => .ok (gs ++ tailGaps)

/-- The critical gap `_extract_simulation_gaps` appends when the brand
was not cited. -/
def not_cited_gap : Gap :=
  { gapType := "not_cited_by_ai", severity := "critical"
    description := "Brand was not mentioned in AI recommendation"
    recommendation := "Improve product attributes, trust signals, and content clarity to increase AI citation likelihood"
    engineSource := "AI_SIMULATION" }

/-- The medium gap `_extract_simulation_gaps` appends per missing
signal. -/
def missing_signal_gap (signal : String) : Gap :=
  { gapType := "missing_attribute", severity := "medium"
    description := "AI values this attribute but it may be missing: " ++ signal
    recommendation := "Add or enhance information about: " ++ signal
    engineSource := "AI_SIMULATION" }

/-- `AnalysisOrchestrator._extract_simulation_gaps`: one critical
`not_cited_by_ai` gap when the brand was not cited, then one medium
`missing_attribute` gap per missing signal. -/
def extract_simulation_gaps (sim : SimulationResult) : List Gap :=
  (if !sim.brandCited then [not_cited_gap] else []) ++
  sim.missingSignals.map missing_signal_gap

/-- The guard of step 8 of `analyze_url`:
`if self.simulator and brand and product_category and use_case`. -/
def simulation_runs (env : PipelineEnv) : Bool :=
  env.simulatorConfigured && py_truthy env.brand &&
    py_truthy env.productCategory && py_truthy env.useCase

/-- The `except` clause of `analyze_url`: the analysis is marked
`failed` with the exception's message, then the exception is re-raised.
When that status write itself raises, the record is left as it was and
the persistence error propagates instead. -/
def fail_pipeline (repo : RepoBehavior) (record : AnalysisRecord)
    (crawled : Option CrawledContent) (scores : List EngineScore)
    (gaps : List Gap) (sim : Option SimulationResult) (msg : String) :
    PipelineOutcome :=
  if repo.updateStatusFailed then
    { record := { record with status := .failed, errorMessage := some msg }
      savedScores := scores, savedGaps := gaps, savedCrawled := crawled
      savedSimulation := sim, result := .error msg }
  else
    { record := record
      savedScores := scores, savedGaps := gaps, savedCrawled := crawled
      savedSimulation := sim, result := .error "persistence error: update_analysis_status(failed)" }

/-- `AnalysisOrchestrator.analyze_url`, steps 2–10 (the creation of the
record in step 1 yields `pending` with no score and no error). Each
repository write may raise, a raising write being caught by the outer
`except`. The simulation block's failures are swallowed in place. -/
def analyze_url (env : PipelineEnv) : PipelineOutcome :=
  let record0 : AnalysisRecord := { status := .pending, compositeScore := none, errorMessage := none }
  -- step 2: update status to processing (also clears the error column)
  if !env.repo.updateStatusProcessing then
    fail_pipeline env.repo record0 none [] [] none "persistence error: update_analysis_status(processing)"
  else
  let record1 : AnalysisRecord := { status := .processing, compositeScore := none, errorMessage := none }
  -- step 3: crawl with fallback, then persist the crawled content
  match crawl_url env with
  | .error m => fail_pipeline env.repo record1 none [] [] none m
  | .ok crawled =>
  if !env.repo.saveCrawledContent then
    fail_pipeline env.repo record1 none [] [] none "persistence error: save_crawled_content"
  else
  -- step 4: parse content (fatal on failure)
  match env.parseResult with
  | .error m => fail_pipeline env.repo record1 (some crawled) [] [] none m
  | .ok _ =>
  -- step 5: run engines, then persist each score
  let scores := run_engines env.engines
  if !(env.repo.saveEngineScore || scores.isEmpty) then
    fail_pipeline env.repo record1 (some crawled) [] [] none "persistence error: save_engine_score"
  else
  -- step 6: composite score, persisted before any terminal status
  let composite := calculate_composite_score scores
  if !env.repo.updateCompositeScore then
    fail_pipeline env.repo record1 (some crawled) scores [] none "persistence error: update_composite_score"
  else
  let record2 : AnalysisRecord := { status := .processing, compositeScore := some composite, errorMessage := none }
  -- step 7: per-engine gap identification (fatal on failure)
  match collect_engine_gaps env.engines with
  | .error m => fail_pipeline env.repo record2 (some crawled) scores [] none m
  | .ok engineGaps =>
  -- step 8: optional simulation; every failure inside is swallowed
  let simOutcome : List Gap × Option SimulationResult :=
    if simulation_runs env then
      match env.simulateResult with
      | .error _ => (engineGaps, none)
      | .ok sim =>
        if !env.repo.saveSimulationResult then (engineGaps, none)
        else (engineGaps ++ extract_simulation_gaps sim, some sim)
    else (engineGaps, none)
  let allGaps := simOutcome.1
  let savedSim := simOutcome.2
  -- step 9: save the gaps (`save_gaps` issues no write for an empty list)
  if !(env.repo.saveGaps || allGaps.isEmpty) then
    fail_pipeline env.repo record2 (some crawled) scores [] savedSim "persistence error: save_gaps"
  else
  -- step 10: mark the analysis completed
  if !env.repo.updateStatusCompleted then
    fail_pipeline env.repo record2 (some crawled) scores allGaps savedSim "persistence error: update_analysis_status(completed)"
  else
  { record := { status := .completed, compositeScore := some composite, errorMessage := none }
    savedScores := scores, savedGaps := allGaps, savedCrawled := some crawled
    savedSimulation := savedSim, result := .ok () }

/-- All repository writes succeed during the run. -/
def RepoBehavior.allOk (r : RepoBehavior) : Prop :=
  r.updateStatusProcessing = true ∧ r.saveCrawledContent = true ∧
  r.saveEngineScore = true ∧ r.updateCompositeScore = true ∧
  r.saveSimulationResult = true ∧ r.saveGaps = true ∧
  r.updateStatusCompleted = true ∧ r.updateStatusFailed = true

/-- An environment in which everything outside the engines' `analyze`
calls and the simulation behaves: every repository write succeeds,
crawling and parsing succeed, and `identify_gaps` does not raise. -/
def PipelineEnv.good (env : PipelineEnv) : Prop :=
  env.repo.allOk ∧ (∃ c, crawl_url env = .ok c) ∧ env.parseResult = .ok () ∧
  ∀ e ∈ env.engines, ∃ gs, e.gapsResult = .ok gs

/-- The gaps contributed by the engines when no `identify_gaps` call
raises: the concatenation, in engine order, of the gap lists of the
engines whose `analyze` succeeded. -/
def engine_gap_list : List EngineBehavior → List Gap
  | [] => []
  | e :: rest =>
    (match e.analyzeResult, e.gapsResult with
     | .ok _, .ok gs => gs
     | _, _ => []) ++ engine_gap_list rest

/-! ## A definition taken from the spec's words (for claim C9) -/

/-- Modelled from the spec (§4.1, ARCE): the heading-hierarchy
sub-score as the spec words it — "10 for having exactly one H1, 10 for
not having multiple H1s … plus 5 for no skipped heading levels". Used
only for comparison with the source's `arce_score_heading_hierarchy`. -/
def spec_score_heading_hierarchy (levels : List ℕ) : ℚ :=
  (if levels.count 1 = 1 then 10 else 0) +
  (if ¬ 1 < levels.count 1 then 10 else 0) +
  (if skipped_pairs levels = [] then 5 else 0)

/-! ## Concrete inputs used by the witnesses and counterexamples -/

/-- Valid degenerate content: a 100-character single-sentence text of
complex words (the Flesch reading-ease formula
`206.835 - 1.015·(words/sentences) - 84.6·(syllables/word)` yields
values far below zero on such text; `-60` is attainable), two `h1`
headings and nothing else. -/
def html_negative_flesch : HtmlData :=
  { title := "", metaDescription := "", headingLevels := [1, 1]
    images := [], textContent := String.mk (List.replicate 100 'a')
    semanticCounts := [], metadata := [], fleschReadingEase := -60
    emailFound := false, phoneFound := false }

/-- Well-behaved content with a nonnegative reading-ease value. -/
def html_plain : HtmlData :=
  { title := "t", metaDescription := "", headingLevels := [1]
    images := [], textContent := ""
    semanticCounts := [], metadata := [], fleschReadingEase := 50
    emailFound := false, phoneFound := false }

/-- Content carrying a 300-character meta description and nothing
else. -/
def html_long_meta : HtmlData :=
  { title := "", metaDescription := String.mk (List.replicate 300 'a')
    headingLevels := [], images := [], textContent := ""
    semanticCounts := [], metadata := [], fleschReadingEase := 0
    emailFound := false, phoneFound := false }

/-- A Product schema whose own `description` is empty (the attribute
richness scoring then falls back to the meta description). -/
def product_empty_desc : ProductSchema :=
  { namePresent := true, description := "", imagePresent := false
    brandPresent := false, offers := [], sku := false, gtin := false
    mpn := false, aggregateRating := false, review := false }

/-- Schema data holding `product_empty_desc`. -/
def schema_with_product : SchemaData :=
  { product := some product_empty_desc, brandInfo := none }

/-- The medium `no_reviews` gap exactly as `TREEngine.identify_gaps`
emits it. -/
def gap_no_reviews : Gap :=
  { gapType := "no_reviews", severity := "medium"
    description := "No review or rating information found"
    recommendation := "Add AggregateRating or Review schema to build trust signals"
    engineSource := "TRE" }

/-- A stored gap of the data model's fourth severity `low` (§3 admits
`critical`, `high`, `medium` and `low`; `Repository.get_gaps` orders
whatever severities the stored gaps carry). -/
def gap_low_note : Gap :=
  { gapType := "minor_note", severity := "low"
    description := "A minor note", recommendation := "None"
    engineSource := "TRE" }

/-- Repository behaviour with every write succeeding. -/
def repo_all_ok : RepoBehavior :=
  { updateStatusProcessing := true, saveCrawledContent := true
    saveEngineScore := true, updateCompositeScore := true
    saveSimulationResult := true, saveGaps := true
    updateStatusCompleted := true, updateStatusFailed := true }

/-- A run in which the single engine scores 50 (weight 0.3) and its
`identify_gaps` then raises: the run fails after the composite score
was persisted. -/
def env_gap_failure : PipelineEnv :=
  { url := "https://example.com/p"
    primaryFetch := .ok { url := "https://example.com/p", htmlContent := "<html></html>", statusCode := 200 }
    fallbackFetch := .error "unused"
    parseResult := .ok ()
    engines := [{ name := "ADE", weight := 3 / 10, analyzeResult := .ok 50, gapsResult := .error "boom" }]
    simulatorConfigured := false, brand := none, productCategory := none
    useCase := none, simulateResult := .error "no simulator"
    repo := repo_all_ok }

/-- A run in which ADE's `analyze` raises while ARCE and TRE score 40
and 55; one ARCE gap is identified. -/
def env_engine_failure : PipelineEnv :=
  { url := "https://example.com/p"
    primaryFetch := .ok { url := "https://example.com/p", htmlContent := "<html></html>", statusCode := 200 }
    fallbackFetch := .error "unused"
    parseResult := .ok ()
    engines :=
      [{ name := "ADE", weight := 3 / 10, analyzeResult := .error "AttributeError", gapsResult := .ok [] },
       { name := "ARCE", weight := 1 / 5, analyzeResult := .ok 40, gapsResult := .ok [gap_no_reviews] },
       { name := "TRE", weight := 1 / 5, analyzeResult := .ok 55, gapsResult := .ok [] }]
    simulatorConfigured := false, brand := none, productCategory := none
    useCase := none, simulateResult := .error "no simulator"
    repo := repo_all_ok }

/-- A run in which the primary fetch fails and the Playwright fallback
succeeds. -/
def env_fallback_success : PipelineEnv :=
  { url := "https://example.com/p"
    primaryFetch := .error "HTTP 403"
    fallbackFetch := .ok { url := "https://example.com/p", htmlContent := "<html>x</html>", statusCode := 200 }
    parseResult := .ok ()
    engines := []
    simulatorConfigured := false, brand := none, productCategory := none
    useCase := none, simulateResult := .error "no simulator"
    repo := repo_all_ok }

/-- A run in which both fetch strategies fail. -/
def env_fallback_failure : PipelineEnv :=
  { url := "https://example.com/p"
    primaryFetch := .error "HTTP 403"
    fallbackFetch := .error "Timeout while loading https://example.com/p"
    parseResult := .ok ()
    engines := []
    simulatorConfigured := false, brand := none, productCategory := none
    useCase := none, simulateResult := .error "no simulator"
    repo := repo_all_ok }

/-- The spec's example simulation result: brand not cited, two missing
signals. -/
def sim_example : SimulationResult :=
  { brandCited := false, citationCount := 0
    missingSignals := ["warranty", "shipping"] }

/-- A fully configured simulation run over one succeeding engine. -/
def env_simulation : PipelineEnv :=
  { url := "https://example.com/p"
    primaryFetch := .ok { url := "https://example.com/p", htmlContent := "<html></html>", statusCode := 200 }
    fallbackFetch := .error "unused"
    parseResult := .ok ()
    engines := [{ name := "TRE", weight := 1 / 5, analyzeResult := .ok 55, gapsResult := .ok [gap_no_reviews] }]
    simulatorConfigured := true, brand := some "Acme"
    productCategory := some "running shoes", useCase := some "daily training"
    simulateResult := .ok sim_example
    repo := repo_all_ok }

/-- The simulation run with a raising simulation backend. -/
def env_simulation_raises : PipelineEnv :=
  { url := "https://example.com/p"
    primaryFetch := .ok { url := "https://example.com/p", htmlContent := "<html></html>", statusCode := 200 }
    fallbackFetch := .error "unused"
    parseResult := .ok ()
    engines := [{ name := "TRE", weight := 1 / 5, analyzeResult := .ok 55, gapsResult := .ok [gap_no_reviews] }]
    simulatorConfigured := true, brand := some "Acme"
    productCategory := some "running shoes", useCase := some "daily training"
    simulateResult := .error "connection refused"
    repo := repo_all_ok }

/-- The ADE result for `schema_with_product` over `html_long_meta`:
schema completeness 1/10 of 40, attribute richness 15 from the
300-character meta-description fallback, no images, no spec
keywords. -/
def ade_result_example : AdeResult :=
  { score := 19, schemaCompletenessScore := 4, attributeRichnessScore := 15
    imageQualityScore := 0, technicalSpecsScore := 0
    productSchemaPresent := true, descriptionLength := 0, imageCount := 0 }

/-! ## General lemmas -/

theorem round_2_nonneg {q : ℚ} (h : 0 ≤ q) : 0 ≤ round_2 q := by
  unfold round_2
  have h1 : (0 : ℚ) ≤ q * 100 + 1 / 2 := by linarith
  have h2 : (0 : ℤ) ≤ ⌊q * 100 + 1 / 2⌋ := Int.le_floor.mpr (by exact_mod_cast h1)
  have h3 : (0 : ℚ) ≤ (⌊q * 100 + 1 / 2⌋ : ℚ) := by exact_mod_cast h2
  linarith

theorem round_2_le_100 {q : ℚ} (h : q ≤ 100) : round_2 q ≤ 100 := by
  unfold round_2
  have h1 : q * 100 + 1 / 2 < 10001 := by linarith
  have h2 : ⌊q * 100 + 1 / 2⌋ < 10001 := by
    rw [Int.floor_lt]
    exact_mod_cast h1
  have h3 : ⌊q * 100 + 1 / 2⌋ ≤ 10000 := by omega
  have h4 : (⌊q * 100 + 1 / 2⌋ : ℚ) ≤ 10000 := by exact_mod_cast h3
  linarith

theorem weighted_sum_bounds (scores : List EngineScore)
    (h : ∀ s ∈ scores, 0 ≤ s.score ∧ s.score ≤ 100 ∧ 0 ≤ s.weight) :
    0 ≤ weighted_sum scores ∧ weighted_sum scores ≤ 100 * total_weight scores := by
  induction scores with
  | nil => simp [weighted_sum, total_weight]
  | cons s t ih =>
    obtain ⟨hs0, hs100, hw0⟩ := h s (List.mem_cons_self s t)
    obtain ⟨iha, ihb⟩ := ih (fun x hx => h x (List.mem_cons_of_mem s hx))
    simp only [weighted_sum, total_weight, List.map_cons, List.sum_cons] at *
    constructor
    · have := mul_nonneg hs0 hw0
      linarith
    · have := mul_le_mul_of_nonneg_right hs100 hw0
      linarith

/-! ## Claim C1 — composite score -/

/-- C1: for engine scores with nonnegative weights and scores in
[0, 100], the composite is exactly 0 when the total weight is 0
(including the empty score set), and otherwise equals the weighted mean
rounded to two decimals and lies in [0, 100]. -/
theorem claim_c1_composite_score (scores : List EngineScore)
    (hrange : ∀ s ∈ scores, 0 ≤ s.score ∧ s.score ≤ 100 ∧ 0 ≤ s.weight) :
    (total_weight scores = 0 → calculate_composite_score scores = 0) ∧
    (0 < total_weight scores →
      calculate_composite_score scores =
        round_2 (weighted_sum scores / total_weight scores) ∧
      0 ≤ calculate_composite_score scores ∧
      calculate_composite_score scores ≤ 100) := by
  constructor
  · intro h0
    simp [calculate_composite_score, h0]
  · intro hpos
    have hne : total_weight scores ≠ 0 := ne_of_gt hpos
    have heq : calculate_composite_score scores =
        round_2 (weighted_sum scores / total_weight scores) := by
      simp [calculate_composite_score, hne]
    obtain ⟨hws0, hws100⟩ := weighted_sum_bounds scores hrange
    have hmean0 : 0 ≤ weighted_sum scores / total_weight scores :=
      div_nonneg hws0 (le_of_lt hpos)
    have hmean100 : weighted_sum scores / total_weight scores ≤ 100 := by
      rw [div_le_iff₀ hpos]
      linarith
    exact ⟨heq, heq ▸ round_2_nonneg hmean0, heq ▸ round_2_le_100 hmean100⟩

/-- Witness for C1 at the spec's example weights: ARCE 40 at weight
0.2, TRE 55 at weight 0.2, total weight 0.4. -/
theorem claim_c1_composite_score_witness :
    0 < total_weight [⟨"ARCE", 40, 1 / 5⟩, ⟨"TRE", 55, 1 / 5⟩] ∧
    calculate_composite_score [⟨"ARCE", 40, 1 / 5⟩, ⟨"TRE", 55, 1 / 5⟩] =
      round_2 (weighted_sum [⟨"ARCE", 40, 1 / 5⟩, ⟨"TRE", 55, 1 / 5⟩] /
        total_weight [⟨"ARCE", 40, 1 / 5⟩, ⟨"TRE", 55, 1 / 5⟩]) ∧
    0 ≤ calculate_composite_score [⟨"ARCE", 40, 1 / 5⟩, ⟨"TRE", 55, 1 / 5⟩] ∧
    calculate_composite_score [⟨"ARCE", 40, 1 / 5⟩, ⟨"TRE", 55, 1 / 5⟩] ≤ 100 := by
  have hpos : 0 < total_weight [⟨"ARCE", 40, 1 / 5⟩, ⟨"TRE", 55, 1 / 5⟩] := by
    norm_num [total_weight]
  have h := (claim_c1_composite_score [⟨"ARCE", 40, 1 / 5⟩, ⟨"TRE", 55, 1 / 5⟩]
    (by intro s hs; fin_cases hs <;> norm_num)).2 hpos
  exact ⟨hpos, h.1, h.2.1, h.2.2⟩

/-! ## Claim C2 — composite-score/status invariant (corrected) -/

/-- C2 counterexample: in `env_gap_failure` the single engine scores
50 and its `identify_gaps` raises after the composite has been
persisted; the analysis ends in status `failed` with the composite
score still recorded — so "composite score is set iff status is
completed" is false of a terminal record produced by the pipeline. -/
theorem claim_c2_counterexample :
    (analyze_url env_gap_failure).record.status = .failed ∧
    (analyze_url env_gap_failure).record.compositeScore = some 50 ∧
    (analyze_url env_gap_failure).record.errorMessage = some "boom" := by
  refine ⟨?_, ?_, ?_⟩ <;>
    norm_num [analyze_url, env_gap_failure, repo_all_ok, crawl_url, run_engines,
      collect_engine_gaps, calculate_composite_score, total_weight, weighted_sum,
      round_2, fail_pipeline, simulation_runs, py_truthy, List.filterMap_cons]

/-- C2 amended: provided the failure-path status write itself succeeds,
the final record's error message is set iff its status is `failed`, and
a `completed` record carries a composite score and no error; but the
composite is persisted as soon as it is computed, so a run that fails
after scoring ends `failed` with the composite score still set
(`claim_c2_counterexample`) — the "composite set iff completed" half of
the claimed invariant does not hold. -/
theorem fail_pipeline_record (repo : RepoBehavior) (rec : AnalysisRecord)
    (crawled : Option CrawledContent) (scores : List EngineScore)
    (gaps : List Gap) (sim : Option SimulationResult) (msg : String)
    (hfail : repo.updateStatusFailed = true) :
    (fail_pipeline repo rec crawled scores gaps sim msg).record =
      { rec with status := .failed, errorMessage := some msg } := by
  unfold fail_pipeline
  rw [if_pos hfail]

theorem claim_c2_amended (env : PipelineEnv)
    (hfail : env.repo.updateStatusFailed = true) :
    ((analyze_url env).record.errorMessage.isSome ↔
      (analyze_url env).record.status = .failed) ∧
    ((analyze_url env).record.status = .completed →
      (analyze_url env).record.compositeScore.isSome ∧
      (analyze_url env).record.errorMessage = none) := by
  unfold analyze_url
  repeat' split
  all_goals simp [fail_pipeline_record _ _ _ _ _ _ _ hfail]
  all_goals repeat' split
  all_goals simp [fail_pipeline_record _ _ _ _ _ _ _ hfail]

/-- Witness for C2 amended, at `env_gap_failure`. -/
theorem claim_c2_amended_witness :
    ((analyze_url env_gap_failure).record.errorMessage.isSome ↔
      (analyze_url env_gap_failure).record.status = .failed) ∧
    ((analyze_url env_gap_failure).record.status = .completed →
      (analyze_url env_gap_failure).record.compositeScore.isSome ∧
      (analyze_url env_gap_failure).record.errorMessage = none) :=
  claim_c2_amended env_gap_failure rfl

/-! ## Pipeline path lemmas -/

theorem collect_engine_gaps_ok (engines : List EngineBehavior)
    (h : ∀ e ∈ engines, ∃ gs, e.gapsResult = .ok gs) :
    collect_engine_gaps engines = .ok (engine_gap_list engines) := by
  induction engines with
  | nil => rfl
  | cons e rest ih =>
    obtain ⟨gs, hgs⟩ := h e (List.mem_cons_self e rest)
    have ihr := ih (fun x hx => h x (List.mem_cons_of_mem e hx))
    cases hae : e.analyzeResult with
    | error m => simp [collect_engine_gaps, engine_gap_list, hae, ihr]
    | ok q => simp [collect_engine_gaps, engine_gap_list, hae, hgs, ihr]

theorem analyze_url_good_nosim (env : PipelineEnv)
    (h1 : env.repo.updateStatusProcessing = true)
    (h2 : env.repo.saveCrawledContent = true)
    (h3 : env.repo.saveEngineScore = true)
    (h4 : env.repo.updateCompositeScore = true)
    (h6 : env.repo.saveGaps = true)
    (h7 : env.repo.updateStatusCompleted = true)
    (c : CrawledContent) (hc : crawl_url env = .ok c)
    (hp : env.parseResult = .ok ())
    (gaps : List Gap) (hcg : collect_engine_gaps env.engines = .ok gaps)
    (hnosim : simulation_runs env = false) :
    analyze_url env =
      { record := { status := .completed
                    compositeScore := some (calculate_composite_score (run_engines env.engines))
                    errorMessage := none }
        savedScores := run_engines env.engines
        savedGaps := gaps
        savedCrawled := some c
        savedSimulation := none
        result := .ok () } := by
  unfold analyze_url
  simp [h1, h2, h3, h4, h6, h7, hc, hp, hcg, hnosim]

theorem analyze_url_good_sim_ok (env : PipelineEnv)
    (h1 : env.repo.updateStatusProcessing = true)
    (h2 : env.repo.saveCrawledContent = true)
    (h3 : env.repo.saveEngineScore = true)
    (h4 : env.repo.updateCompositeScore = true)
    (h5 : env.repo.saveSimulationResult = true)
    (h6 : env.repo.saveGaps = true)
    (h7 : env.repo.updateStatusCompleted = true)
    (c : CrawledContent) (hc : crawl_url env = .ok c)
    (hp : env.parseResult = .ok ())
    (gaps : List Gap) (hcg : collect_engine_gaps env.engines = .ok gaps)
    (hsim : simulation_runs env = true)
    (sim : SimulationResult) (hs : env.simulateResult = .ok sim) :
    analyze_url env =
      { record := { status := .completed
                    compositeScore := some (calculate_composite_score (run_engines env.engines))
                    errorMessage := none }
        savedScores := run_engines env.engines
        savedGaps := gaps ++ extract_simulation_gaps sim
        savedCrawled := some c
        savedSimulation := some sim
        result := .ok () } := by
  unfold analyze_url
  simp [h1, h2, h3, h4, h5, h6, h7, hc, hp, hcg, hsim, hs]

theorem analyze_url_good_sim_err (env : PipelineEnv)
    (h1 : env.repo.updateStatusProcessing = true)
    (h2 : env.repo.saveCrawledContent = true)
    (h3 : env.repo.saveEngineScore = true)
    (h4 : env.repo.updateCompositeScore = true)
    (h6 : env.repo.saveGaps = true)
    (h7 : env.repo.updateStatusCompleted = true)
    (c : CrawledContent) (hc : crawl_url env = .ok c)
    (hp : env.parseResult = .ok ())
    (gaps : List Gap) (hcg : collect_engine_gaps env.engines = .ok gaps)
    (hsim : simulation_runs env = true)
    (m : String) (hs : env.simulateResult = .error m) :
    analyze_url env =
      { record := { status := .completed
                    compositeScore := some (calculate_composite_score (run_engines env.engines))
                    errorMessage := none }
        savedScores := run_engines env.engines
        savedGaps := gaps
        savedCrawled := some c
        savedSimulation := none
        result := .ok () } := by
  unfold analyze_url
  simp [h1, h2, h3, h4, h6, h7, hc, hp, hcg, hsim, hs]

theorem analyze_url_crawl_failed (env : PipelineEnv)
    (h1 : env.repo.updateStatusProcessing = true)
    (hfail : env.repo.updateStatusFailed = true)
    (m : String) (hc : crawl_url env = .error m) :
    analyze_url env =
      { record := { status := .failed, compositeScore := none, errorMessage := some m }
        savedScores := [], savedGaps := [], savedCrawled := none
        savedSimulation := none, result := .error m } := by
  unfold analyze_url fail_pipeline
  simp [h1, hc, hfail]

theorem run_engines_eq_nil (engines : List EngineBehavior)
    (h : ∀ e ∈ engines, ∀ q, e.analyzeResult ≠ .ok q) :
    run_engines engines = [] := by
  induction engines with
  | nil => rfl
  | cons e rest ih =>
    have ihr := ih (fun x hx q => h x (List.mem_cons_of_mem e hx) q)
    cases hae : e.analyzeResult with
    | ok q => exact absurd hae (h e (List.mem_cons_self e rest) q)
    | error m =>
      simp only [run_engines, List.filterMap_cons, hae]
      simpa [run_engines] using ihr

theorem engine_gap_list_eq_nil (engines : List EngineBehavior)
    (h : ∀ e ∈ engines, ∀ q, e.analyzeResult ≠ .ok q) :
    engine_gap_list engines = [] := by
  induction engines with
  | nil => rfl
  | cons e rest ih =>
    have ihr := ih (fun x hx q => h x (List.mem_cons_of_mem e hx) q)
    cases hae : e.analyzeResult with
    | ok q => exact absurd hae (h e (List.mem_cons_self e rest) q)
    | error m => simp [engine_gap_list, hae, ihr]

/-! ## Claim C3 — engine failure isolation -/

/-- C3: in an environment whose repository writes, crawl, parse and
gap-identification calls succeed and with no simulation running, the
run completes whatever subset of engines raise: the saved score set is
exactly the scores of the succeeding engines, the composite is computed
from those scores only, the saved gaps come from succeeding engines
only (no score and no gaps for a raising engine), and when every engine
raises, the composite is 0 with no engine gaps. -/
theorem claim_c3_engine_isolation (env : PipelineEnv) (hgood : env.good)
    (hnosim : simulation_runs env = false) :
    (analyze_url env).result = .ok () ∧
    (analyze_url env).record.status = .completed ∧
    (analyze_url env).savedScores = run_engines env.engines ∧
    (analyze_url env).record.compositeScore =
      some (calculate_composite_score (run_engines env.engines)) ∧
    (analyze_url env).savedGaps = engine_gap_list env.engines ∧
    ((env.engines.map (fun e => e.name)).Nodup →
      ∀ e ∈ env.engines, (∀ q, e.analyzeResult ≠ .ok q) →
        ∀ s ∈ (analyze_url env).savedScores, s.engineName ≠ e.name) ∧
    ((∀ e ∈ env.engines, ∀ q, e.analyzeResult ≠ .ok q) →
      (analyze_url env).record.compositeScore = some 0 ∧
      (analyze_url env).savedGaps = []) := by
  obtain ⟨⟨h1, h2, h3, h4, h5, h6, h7, h8⟩, ⟨c, hc⟩, hp, hg⟩ := hgood
  have hcg := collect_engine_gaps_ok env.engines hg
  have main := analyze_url_good_nosim env h1 h2 h3 h4 h6 h7 c hc hp _ hcg hnosim
  rw [main]
  refine ⟨rfl, rfl, rfl, rfl, rfl, ?_, ?_⟩
  · intro hnodup e he hefail s hs hname
    simp only [run_engines, List.mem_filterMap] at hs
    obtain ⟨e2, he2, hf⟩ := hs
    cases hae : e2.analyzeResult with
    | error m => rw [hae] at hf; exact Option.noConfusion hf
    | ok q =>
      rw [hae] at hf
      have hsname : s.engineName = e2.name := by
        cases hf
        rfl
      have : e2 = e := List.inj_on_of_nodup_map hnodup he2 he (by rw [← hsname, hname])
      subst this
      exact hefail q hae
  · intro hall
    rw [run_engines_eq_nil env.engines hall, engine_gap_list_eq_nil env.engines hall]
    simp [calculate_composite_score, total_weight]

/-- Witness for C3 at `env_engine_failure` (ADE raises, ARCE and TRE
succeed). -/
theorem claim_c3_engine_isolation_witness :
    (analyze_url env_engine_failure).record.status = .completed ∧
    (analyze_url env_engine_failure).savedScores = run_engines env_engine_failure.engines ∧
    (analyze_url env_engine_failure).record.compositeScore =
      some (calculate_composite_score (run_engines env_engine_failure.engines)) ∧
    (analyze_url env_engine_failure).savedGaps = engine_gap_list env_engine_failure.engines := by
  have h := claim_c3_engine_isolation env_engine_failure
    ⟨⟨rfl, rfl, rfl, rfl, rfl, rfl, rfl, rfl⟩, ⟨_, rfl⟩, rfl, by
      intro e he
      fin_cases he <;> exact ⟨_, rfl⟩⟩ rfl
  exact ⟨h.2.1, h.2.2.1, h.2.2.2.1, h.2.2.2.2.1⟩

/-! ## Claim C6 — acquisition fallback -/

/-- C6: when the primary fetch fails and the fallback succeeds, the
crawl yields the fallback's content with the `playwright` method tag
and (in an otherwise good environment) the run completes with that
content saved; when both fail, the run ends `failed` carrying the
fallback's error inside `Failed to crawl {url}: {error}`, the exception
propagates, and no later stage leaves a trace (no content, scores,
gaps, composite or simulation saved). -/
theorem claim_c6_crawl_fallback (env : PipelineEnv) :
    (∀ e1 r, env.primaryFetch = .error e1 → env.fallbackFetch = .ok r →
      crawl_url env = .ok (playwright_content r) ∧
      (env.good → simulation_runs env = false →
        (analyze_url env).record.status = .completed ∧
        (analyze_url env).result = .ok () ∧
        (analyze_url env).savedCrawled = some (playwright_content r))) ∧
    (∀ e1 e2, env.primaryFetch = .error e1 → env.fallbackFetch = .error e2 →
      env.repo.updateStatusProcessing = true → env.repo.updateStatusFailed = true →
      (analyze_url env).record.status = .failed ∧
      (analyze_url env).record.errorMessage =
        some ("Failed to crawl " ++ env.url ++ ": " ++ e2) ∧
      (analyze_url env).result = .error ("Failed to crawl " ++ env.url ++ ": " ++ e2) ∧
      (analyze_url env).record.compositeScore = none ∧
      (analyze_url env).savedScores = [] ∧
      (analyze_url env).savedGaps = [] ∧
      (analyze_url env).savedCrawled = none ∧
      (analyze_url env).savedSimulation = none) := by
  constructor
  · intro e1 r hp1 hp2
    have hc : crawl_url env = .ok (playwright_content r) := by
      unfold crawl_url
      rw [hp1, hp2]
    refine ⟨hc, ?_⟩
    intro hgood hnosim
    obtain ⟨⟨h1, h2, h3, h4, h5, h6, h7, h8⟩, ⟨c, hc2⟩, hparse, hg⟩ := hgood
    have hcg := collect_engine_gaps_ok env.engines hg
    have main := analyze_url_good_nosim env h1 h2 h3 h4 h6 h7 _ hc hparse _ hcg hnosim
    rw [main]
    exact ⟨rfl, rfl, rfl⟩
  · intro e1 e2 hp1 hp2 h1 hfail
    have hc : crawl_url env = .error ("Failed to crawl " ++ env.url ++ ": " ++ e2) := by
      unfold crawl_url
      rw [hp1, hp2]
    have main := analyze_url_crawl_failed env h1 hfail _ hc
    rw [main]
    exact ⟨rfl, rfl, rfl, rfl, rfl, rfl, rfl, rfl⟩

/-- Witness for C6 at `env_fallback_success` and
`env_fallback_failure`. -/
theorem claim_c6_crawl_fallback_witness :
    crawl_url env_fallback_success =
      .ok (playwright_content ⟨"https://example.com/p", "<html>x</html>", 200⟩) ∧
    (analyze_url env_fallback_success).record.status = .completed ∧
    (analyze_url env_fallback_failure).record.status = .failed ∧
    (analyze_url env_fallback_failure).record.errorMessage =
      some ("Failed to crawl " ++ env_fallback_failure.url ++ ": " ++
        "Timeout while loading https://example.com/p") := by
  have h1 := (claim_c6_crawl_fallback env_fallback_success).1 "HTTP 403"
    ⟨"https://example.com/p", "<html>x</html>", 200⟩ rfl rfl
  have h2 := (claim_c6_crawl_fallback env_fallback_failure).2 "HTTP 403"
    "Timeout while loading https://example.com/p" rfl rfl rfl rfl
  refine ⟨h1.1, ?_, h2.1, h2.2.1⟩
  exact (h1.2 ⟨⟨rfl, rfl, rfl, rfl, rfl, rfl, rfl, rfl⟩, ⟨_, rfl⟩, rfl, by
    intro e he
    fin_cases he⟩ rfl).1

/-! ## Claim C7 — simulation gating and swallowing -/

/-- C7: in a good environment, a simulation result is saved iff a
backend is configured and brand, product category and use case are all
(truthily) supplied; and when the simulation raises, the run still
completes, nothing simulation-related is saved, and the gap set holds
the engine gaps only — the simulation gap mapping is skipped
entirely. -/
theorem claim_c7_simulation (env : PipelineEnv) (hgood : env.good) :
    (∀ sim, env.simulateResult = .ok sim →
      ((analyze_url env).savedSimulation = some sim ↔
        (env.simulatorConfigured = true ∧ py_truthy env.brand = true ∧
         py_truthy env.productCategory = true ∧ py_truthy env.useCase = true))) ∧
    (∀ m, env.simulateResult = .error m →
      (analyze_url env).record.status = .completed ∧
      (analyze_url env).savedSimulation = none ∧
      (analyze_url env).savedGaps = engine_gap_list env.engines) := by
  obtain ⟨⟨h1, h2, h3, h4, h5, h6, h7, h8⟩, ⟨c, hc⟩, hparse, hg⟩ := hgood
  have hcg := collect_engine_gaps_ok env.engines hg
  constructor
  · intro sim hs
    cases hrun : simulation_runs env with
    | true =>
      have main := analyze_url_good_sim_ok env h1 h2 h3 h4 h5 h6 h7 c hc hparse _ hcg hrun sim hs
      rw [main]
      simp only [simulation_runs, Bool.and_eq_true] at hrun
      simp [hrun.1.1.1, hrun.1.1.2, hrun.1.2, hrun.2]
    | false =>
      have main := analyze_url_good_nosim env h1 h2 h3 h4 h6 h7 c hc hparse _ hcg hrun
      rw [main]
      constructor
      · intro habs
        exact absurd habs (by simp)
      · rintro ⟨k1, k2, k3, k4⟩
        rw [simulation_runs, k1, k2, k3, k4] at hrun
        simp at hrun
  · intro m hs
    cases hrun : simulation_runs env with
    | true =>
      have main := analyze_url_good_sim_err env h1 h2 h3 h4 h6 h7 c hc hparse _ hcg hrun m hs
      rw [main]
      exact ⟨rfl, rfl, rfl⟩
    | false =>
      have main := analyze_url_good_nosim env h1 h2 h3 h4 h6 h7 c hc hparse _ hcg hrun
      rw [main]
      exact ⟨rfl, rfl, rfl⟩

/-- Witness for C7 at `env_simulation` (backend configured, all inputs
supplied, simulation succeeds) and `env_simulation_raises` (backend
raises). -/
theorem claim_c7_simulation_witness :
    (analyze_url env_simulation).savedSimulation = some sim_example ∧
    (analyze_url env_simulation_raises).record.status = .completed ∧
    (analyze_url env_simulation_raises).savedSimulation = none := by
  have hgood1 : env_simulation.good :=
    ⟨⟨rfl, rfl, rfl, rfl, rfl, rfl, rfl, rfl⟩, ⟨_, rfl⟩, rfl, by
      intro e he
      fin_cases he
      exact ⟨_, rfl⟩⟩
  have hgood2 : env_simulation_raises.good :=
    ⟨⟨rfl, rfl, rfl, rfl, rfl, rfl, rfl, rfl⟩, ⟨_, rfl⟩, rfl, by
      intro e he
      fin_cases he
      exact ⟨_, rfl⟩⟩
  have h1 := (claim_c7_simulation env_simulation hgood1).1 sim_example rfl
  have h2 := (claim_c7_simulation env_simulation_raises hgood2).2 "connection refused" rfl
  exact ⟨h1.mpr ⟨rfl, by decide, by decide, by decide⟩, h2.1, h2.2.1⟩

/-! ## Claim C8 — simulation gap extraction -/

/-- C8: the simulation gap extraction yields exactly the critical
`not_cited_by_ai` gap (iff the brand was not cited) plus one medium
`missing_attribute` gap per missing signal, each carrying the signal
name in its description, and nothing else; and in a good environment
the extracted gaps are appended after all engine gaps. -/
theorem claim_c8_simulation_gaps (sim : SimulationResult) (env : PipelineEnv)
    (hgood : env.good) (hrun : simulation_runs env = true)
    (hs : env.simulateResult = .ok sim) :
    (extract_simulation_gaps sim).filter
        (fun g => decide (g.gapType = "not_cited_by_ai")) =
      (if sim.brandCited then [] else [not_cited_gap]) ∧
    (extract_simulation_gaps sim).filter
        (fun g => decide (g.gapType = "missing_attribute")) =
      sim.missingSignals.map missing_signal_gap ∧
    (∀ g ∈ extract_simulation_gaps sim,
      (g.gapType = "not_cited_by_ai" ∧ g.severity = "critical" ∧ g = not_cited_gap) ∨
      (g.gapType = "missing_attribute" ∧ g.severity = "medium" ∧
        ∃ signal ∈ sim.missingSignals,
          g.description = "AI values this attribute but it may be missing: " ++ signal)) ∧
    ((∃ g ∈ extract_simulation_gaps sim, g.gapType = "not_cited_by_ai") ↔
      sim.brandCited = false) ∧
    (analyze_url env).savedGaps =
      engine_gap_list env.engines ++ extract_simulation_gaps sim := by
  obtain ⟨⟨h1, h2, h3, h4, h5, h6, h7, h8⟩, ⟨c, hc⟩, hparse, hg⟩ := hgood
  have hcg := collect_engine_gaps_ok env.engines hg
  have main := analyze_url_good_sim_ok env h1 h2 h3 h4 h5 h6 h7 c hc hparse _ hcg hrun sim hs
  have hall : ∀ s ∈ sim.missingSignals,
      ((fun g => decide (g.gapType = "missing_attribute")) ∘ missing_signal_gap) s = true := by
    intro s _
    simp [missing_signal_gap]
  refine ⟨?_, ?_, ?_, ?_, ?_⟩
  · cases hb : sim.brandCited <;>
      simp [extract_simulation_gaps, hb, not_cited_gap, List.filter_append,
        List.filter_map, missing_signal_gap, Function.comp]
  · cases hb : sim.brandCited <;>
      simp [extract_simulation_gaps, hb, not_cited_gap, List.filter_append,
        List.filter_map, List.filter_eq_self.mpr hall]
  · intro g hg2
    simp only [extract_simulation_gaps, List.mem_append, List.mem_map] at hg2
    rcases hg2 with hg2 | ⟨signal, hsig, rfl⟩
    · cases hb : sim.brandCited
      · rw [hb] at hg2
        have : g = not_cited_gap := by simpa using hg2
        subst this
        exact Or.inl ⟨rfl, rfl, rfl⟩
      · rw [hb] at hg2
        simp at hg2
    · exact Or.inr ⟨rfl, rfl, signal, hsig, rfl⟩
  · cases hb : sim.brandCited <;>
      simp [extract_simulation_gaps, hb, not_cited_gap, missing_signal_gap]
  · rw [main]

/-- Witness for C8 at `env_simulation` with `sim_example`
(`brand_cited` false, missing signals warranty and shipping). -/
theorem claim_c8_simulation_gaps_witness :
    (analyze_url env_simulation).savedGaps =
      engine_gap_list env_simulation.engines ++ extract_simulation_gaps sim_example ∧
    (extract_simulation_gaps sim_example).filter
        (fun g => decide (g.gapType = "not_cited_by_ai")) = [not_cited_gap] ∧
    (extract_simulation_gaps sim_example).filter
        (fun g => decide (g.gapType = "missing_attribute")) =
      [missing_signal_gap "warranty", missing_signal_gap "shipping"] := by
  have hgood1 : env_simulation.good :=
    ⟨⟨rfl, rfl, rfl, rfl, rfl, rfl, rfl, rfl⟩, ⟨_, rfl⟩, rfl, by
      intro e he
      fin_cases he
      exact ⟨_, rfl⟩⟩
  have h := claim_c8_simulation_gaps sim_example env_simulation hgood1 (by decide) rfl
  refine ⟨h.2.2.2.2, ?_, ?_⟩
  · have := h.1
    simpa [sim_example] using this
  · have := h.2.1
    simpa [sim_example] using this



theorem completeness_bounds (product : Option ProductSchema) :
    0 ≤ (validate_product_schema product).completeness ∧
    (validate_product_schema product).completeness ≤ 1 := by
  cases product with
  | none => simp [validate_product_schema]
  | some p =>
    simp only [validate_product_schema]
    constructor
    · positivity
    · rw [div_le_one (by norm_num [recommended_fields])]
      have h := List.length_filter_le (fun f => product_field_present p f) recommended_fields
      have h10 : recommended_fields.length = 10 := by rfl
      rw [h10] at h
      exact_mod_cast h

theorem calculate_richness_score_bounds (content : String) (benchmarkChars : ℕ)
    (maxPoints : ℚ) (h : 0 ≤ maxPoints) :
    0 ≤ calculate_richness_score content benchmarkChars maxPoints ∧
    calculate_richness_score content benchmarkChars maxPoints ≤ maxPoints := by
  unfold calculate_richness_score
  have hx : (0 : ℚ) ≤ (content.length : ℚ) / (benchmarkChars : ℚ) :=
    div_nonneg (by positivity) (by positivity)
  constructor
  · exact mul_nonneg (le_min zero_le_one hx) h
  · calc min 1 ((content.length : ℚ) / (benchmarkChars : ℚ)) * maxPoints
        ≤ 1 * maxPoints := mul_le_mul_of_nonneg_right (min_le_left _ _) h
      _ = maxPoints := one_mul _

theorem ade_score_schema_completeness_bounds (sd : SchemaData) :
    0 ≤ ade_score_schema_completeness sd ∧ ade_score_schema_completeness sd ≤ 40 := by
  obtain ⟨hl, hr⟩ := completeness_bounds sd.product
  unfold ade_score_schema_completeness
  by_cases hcase : (validate_product_schema sd.product).present = true
  · simp only [hcase, if_true]
    constructor
    · positivity
    · nlinarith
  · simp only [hcase, if_false]
    norm_num

theorem ade_score_attribute_richness_bounds (sd : SchemaData) (hd : HtmlData)
    (q : ℚ) (h : ade_score_attribute_richness sd hd = .ok q) :
    0 ≤ q ∧ q ≤ 30 := by
  unfold ade_score_attribute_richness at h
  cases hp : sd.product with
  | none => rw [hp] at h; exact absurd h (by simp)
  | some p =>
    rw [hp] at h
    simp only [Except.ok.injEq] at h
    subst h
    obtain ⟨ha, hb⟩ := calculate_richness_score_bounds
      (if !p.description.isEmpty then p.description else hd.metaDescription) 300 15 (by norm_num)
    constructor
    · have : (0 : ℚ) ≤ (if py_truthy sd.brandInfo then (15 : ℚ) / 2 else 0) +
          (if p.sku || p.gtin || p.mpn then (15 : ℚ) / 2 else 0) := by
        split <;> split <;> norm_num
      linarith
    · have : (if py_truthy sd.brandInfo then (15 : ℚ) / 2 else 0) +
          (if p.sku || p.gtin || p.mpn then (15 : ℚ) / 2 else 0) ≤ 15 := by
        split <;> split <;> norm_num
      linarith

theorem ade_score_image_quality_bounds (hd : HtmlData) :
    0 ≤ ade_score_image_quality hd ∧ ade_score_image_quality hd ≤ 20 := by
  unfold ade_score_image_quality
  split
  · norm_num
  · rename_i hne
    have hpos : 0 < hd.images.length := by
      cases himg : hd.images with
      | nil => rw [himg] at hne; simp at hne
      | cons a l => simp [himg]
    have hposq : (0 : ℚ) < (hd.images.length : ℚ) := by exact_mod_cast hpos
    have hcount : (0 : ℚ) ≤ min 10 ((hd.images.length : ℚ) * (5 / 2)) ∧
        min 10 ((hd.images.length : ℚ) * (5 / 2)) ≤ 10 := by
      constructor
      · exact le_min (by norm_num) (by positivity)
      · exact min_le_left _ _
    have halt : (0 : ℚ) ≤ (((hd.images.filter (fun img => !img.alt.isEmpty)).length : ℚ) /
        (hd.images.length : ℚ)) * 10 ∧
        (((hd.images.filter (fun img => !img.alt.isEmpty)).length : ℚ) /
        (hd.images.length : ℚ)) * 10 ≤ 10 := by
      have hle : ((hd.images.filter (fun img => !img.alt.isEmpty)).length : ℚ) ≤
          (hd.images.length : ℚ) := by
        exact_mod_cast List.length_filter_le _ _
      constructor
      · positivity
      · have : ((hd.images.filter (fun img => !img.alt.isEmpty)).length : ℚ) /
            (hd.images.length : ℚ) ≤ 1 := by
          rw [div_le_one hposq]
          exact hle
        nlinarith
    constructor
    · linarith [hcount.1, halt.1]
    · linarith [hcount.2, halt.2]

theorem ade_score_technical_specs_bounds (hd : HtmlData) :
    0 ≤ ade_score_technical_specs hd ∧ ade_score_technical_specs hd ≤ 10 := by
  unfold ade_score_technical_specs
  constructor
  · exact le_min (by norm_num) (by positivity)
  · exact min_le_left _ _

theorem ade_analyze_score_bounds (sd : SchemaData) (hd : HtmlData)
    (r : AdeResult) (h : ade_analyze sd hd = .ok r) :
    0 ≤ r.score ∧ r.score ≤ 100 := by
  unfold ade_analyze at h
  cases hrich : ade_score_attribute_richness sd hd with
  | error m => rw [hrich] at h; exact absurd h (by simp)
  | ok q =>
    rw [hrich] at h
    simp only [Except.ok.injEq] at h
    subst h
    obtain ⟨a1, a2⟩ := ade_score_schema_completeness_bounds sd
    obtain ⟨b1, b2⟩ := ade_score_attribute_richness_bounds sd hd q hrich
    obtain ⟨c1, c2⟩ := ade_score_image_quality_bounds hd
    obtain ⟨d1, d2⟩ := ade_score_technical_specs_bounds hd
    constructor <;> simp only <;> linarith



theorem arce_score_semantic_html_bounds (hd : HtmlData) :
    0 ≤ arce_score_semantic_html hd ∧ arce_score_semantic_html hd ≤ 30 := by
  unfold arce_score_semantic_html
  exact ⟨le_min (by norm_num) (by positivity), min_le_left _ _⟩

theorem arce_score_readability_le (hd : HtmlData) :
    arce_score_readability hd ≤ 25 := by
  unfold arce_score_readability
  split
  · norm_num
  · dsimp only
    split
    · norm_num
    · split
      · rename_i h60 h30
        rw [not_le] at h60
        nlinarith
      · rename_i h60 h30
        rw [not_le] at h60 h30
        nlinarith

theorem arce_score_readability_nonneg (hd : HtmlData)
    (h : 0 ≤ hd.fleschReadingEase) : 0 ≤ arce_score_readability hd := by
  unfold arce_score_readability
  split
  · norm_num
  · dsimp only
    split
    · norm_num
    · split
      · positivity
      · positivity

theorem arce_score_heading_hierarchy_bounds (v : HeadingValidation) :
    0 ≤ arce_score_heading_hierarchy v ∧ arce_score_heading_hierarchy v ≤ 25 := by
  unfold arce_score_heading_hierarchy
  constructor <;> (split <;> split <;> split <;> norm_num)

theorem arce_score_metadata_bounds (hd : HtmlData) :
    0 ≤ arce_score_metadata hd ∧ arce_score_metadata hd ≤ 20 := by
  unfold arce_score_metadata
  constructor <;> (split <;> split <;> split <;> split <;> norm_num)

theorem arce_analyze_le (hd : HtmlData) : arce_analyze hd ≤ 100 := by
  unfold arce_analyze
  obtain ⟨a1, a2⟩ := arce_score_semantic_html_bounds hd
  have b2 := arce_score_readability_le hd
  obtain ⟨c1, c2⟩ := arce_score_heading_hierarchy_bounds
    (validate_heading_hierarchy hd.headingLevels)
  obtain ⟨d1, d2⟩ := arce_score_metadata_bounds hd
  linarith

theorem arce_analyze_nonneg (hd : HtmlData) (h : 0 ≤ hd.fleschReadingEase) :
    0 ≤ arce_analyze hd := by
  unfold arce_analyze
  obtain ⟨a1, a2⟩ := arce_score_semantic_html_bounds hd
  have b1 := arce_score_readability_nonneg hd h
  obtain ⟨c1, c2⟩ := arce_score_heading_hierarchy_bounds
    (validate_heading_hierarchy hd.headingLevels)
  obtain ⟨d1, d2⟩ := arce_score_metadata_bounds hd
  linarith

theorem tre_score_cta_presence_bounds (hd : HtmlData) (sd : SchemaData) :
    0 ≤ tre_score_cta_presence hd sd ∧ tre_score_cta_presence hd sd ≤ 30 := by
  unfold tre_score_cta_presence
  refine ⟨?_, ?_⟩
  · apply le_min (by norm_num)
    split
    · split <;> norm_num
    · split <;> split <;> norm_num
  · exact min_le_left _ _

theorem tre_score_trust_signals_bounds (hd : HtmlData) (sd : SchemaData) (url : String) :
    0 ≤ tre_score_trust_signals hd sd url ∧ tre_score_trust_signals hd sd url ≤ 30 := by
  unfold tre_score_trust_signals
  constructor <;> (split <;> split <;> split <;> norm_num)

theorem tre_score_contact_info_bounds (hd : HtmlData) :
    0 ≤ tre_score_contact_info hd ∧ tre_score_contact_info hd ≤ 20 := by
  unfold tre_score_contact_info
  constructor <;> (split <;> split <;> split <;> norm_num)

theorem tre_score_payment_shipping_bounds (hd : HtmlData) :
    0 ≤ tre_score_payment_shipping hd ∧ tre_score_payment_shipping hd ≤ 20 := by
  unfold tre_score_payment_shipping
  constructor <;> (split <;> split <;> norm_num)

theorem tre_analyze_bounds (hd : HtmlData) (sd : SchemaData) (url : String) :
    0 ≤ tre_analyze hd sd url ∧ tre_analyze hd sd url ≤ 100 := by
  unfold tre_analyze
  obtain ⟨a1, a2⟩ := tre_score_cta_presence_bounds hd sd
  obtain ⟨b1, b2⟩ := tre_score_trust_signals_bounds hd sd url
  obtain ⟨c1, c2⟩ := tre_score_contact_info_bounds hd
  obtain ⟨d1, d2⟩ := tre_score_payment_shipping_bounds hd
  constructor <;> linarith



/-- C4 counterexample: on `html_negative_flesch` — valid degenerate
content whose 100-character single-sentence text has a reading-ease of
−60 — ARCE's sub-scores sum to −10, below 0: the readability sub-score
`(flesch/30)·12.5` is negative for a negative reading-ease, so the
claimed `[0,100]` bound on every engine score is false. -/
theorem claim_c4_counterexample :
    arce_analyze html_negative_flesch = -10 ∧ arce_analyze html_negative_flesch < 0 := by
  have hlen : html_negative_flesch.textContent.length = 100 := by decide
  have hemp : "".isEmpty = true := by decide
  have heq : arce_analyze html_negative_flesch = -10 := by
    norm_num [arce_analyze, arce_score_semantic_html, arce_score_readability,
      arce_score_heading_hierarchy, arce_score_metadata, validate_heading_hierarchy,
      count_semantic_html_tags, skipped_pairs, og_tag_count, has_canonical,
      py_truthy, hlen, hemp, html_negative_flesch, List.lookup]
  exact ⟨heq, by rw [heq]; norm_num⟩

set_option maxRecDepth 8192 in
theorem ade_eval_witness :
    ade_analyze schema_with_product html_long_meta = .ok ade_result_example := by
  unfold ade_result_example
  have hm : (String.mk (List.replicate 300 'a')).length = 300 := by decide
  have hemp : "".isEmpty = true := by decide
  norm_num [ade_analyze, ade_score_schema_completeness, ade_score_attribute_richness,
    ade_score_image_quality, ade_score_technical_specs, validate_product_schema,
    product_field_present, recommended_fields, calculate_richness_score,
    py_truthy, py_in, chars_sub, chars_pref, py_lower, spec_keywords,
    schema_with_product, product_empty_desc, html_long_meta, hm, hemp]



/-- C4 amended: whenever ADE returns a score it lies in [0, 100] (for
content with no Product schema ADE raises instead of scoring); TRE's
score always lies in [0, 100]; ARCE's score is at most 100 and is
nonnegative whenever the computed Flesch reading-ease is nonnegative —
a negative reading-ease makes the readability sub-score negative and
can push ARCE's total below 0 (`claim_c4_counterexample`). -/
theorem claim_c4_amended (sd : SchemaData) (hd : HtmlData) (url : String) :
    (∀ r, ade_analyze sd hd = .ok r → 0 ≤ r.score ∧ r.score ≤ 100) ∧
    (sd.product = none → ∀ r, ade_analyze sd hd ≠ .ok r) ∧
    (0 ≤ tre_analyze hd sd url ∧ tre_analyze hd sd url ≤ 100) ∧
    arce_analyze hd ≤ 100 ∧
    (0 ≤ hd.fleschReadingEase → 0 ≤ arce_analyze hd) := by
  refine ⟨?_, ?_, tre_analyze_bounds hd sd url, arce_analyze_le hd, arce_analyze_nonneg hd⟩
  · intro r h
    exact ade_analyze_score_bounds sd hd r h
  · intro hp r h
    unfold ade_analyze ade_score_attribute_richness at h
    rw [hp] at h
    simp at h

/-- Witness for C4 amended: ADE scores 19 on `schema_with_product` over
`html_long_meta`; ADE raises on schema-less content; TRE and ARCE lie
in bounds on `html_plain` (reading-ease 50). -/
theorem claim_c4_amended_witness :
    (0 ≤ ade_result_example.score ∧ ade_result_example.score ≤ 100) ∧
    ade_analyze { product := none, brandInfo := none } html_plain ≠
      .ok ade_result_example ∧
    (0 ≤ tre_analyze html_plain schema_with_product "https://example.com" ∧
      tre_analyze html_plain schema_with_product "https://example.com" ≤ 100) ∧
    arce_analyze html_plain ≤ 100 ∧
    0 ≤ arce_analyze html_plain := by
  have h1 := claim_c4_amended schema_with_product html_long_meta "https://example.com"
  have h2 := claim_c4_amended { product := none, brandInfo := none } html_plain "https://example.com"
  have h3 := claim_c4_amended schema_with_product html_plain "https://example.com"
  exact ⟨h1.1 _ ade_eval_witness, h2.2.1 rfl _, h3.2.2.1,
    h3.2.2.2.1, h3.2.2.2.2 (by norm_num [html_plain])⟩

/-! ## Claim C5 lemmas -/

theorem rank_filter_orderedInsert (n : ℕ) (x : Gap) :
    ∀ l : List Gap,
      (List.orderedInsert rank_le x l).filter (fun g => severity_rank g == n) =
        if severity_rank x == n then
          x :: l.filter (fun g => severity_rank g == n)
        else l.filter (fun g => severity_rank g == n) := by
  intro l
  induction l with
  | nil =>
    by_cases hx : (severity_rank x == n) = true <;>
      simp [List.orderedInsert, List.filter, hx]
  | cons b t ih =>
    simp only [List.orderedInsert]
    by_cases hxb : rank_le x b
    · rw [if_pos hxb]
      by_cases hx : (severity_rank x == n) = true <;>
        by_cases hb : (severity_rank b == n) = true <;>
        simp [List.filter, hx, hb]
    · rw [if_neg hxb]
      have hba : severity_rank b < severity_rank x := by
        unfold rank_le at hxb
        omega
      by_cases hx : (severity_rank x == n) = true <;>
        by_cases hb : (severity_rank b == n) = true
      · exfalso
        rw [beq_iff_eq] at hx hb
        omega
      · simp [List.filter, hx, hb, ih]
      · simp [List.filter, hx, hb, ih]
      · simp [List.filter, hx, hb, ih]

theorem rank_filter_sort_by_rank (gaps : List Gap) (n : ℕ) :
    (sort_by_rank gaps).filter (fun g => severity_rank g == n) =
      gaps.filter (fun g => severity_rank g == n) := by
  induction gaps with
  | nil => rfl
  | cons g t ih =>
    simp only [sort_by_rank, List.insertionSort] at ih ⊢
    rw [rank_filter_orderedInsert]
    by_cases hg : (severity_rank g == n) = true <;> simp [List.filter, hg, ih]

theorem enum_map_snd {α β : Type} (f : α → β) :
    ∀ (k : ℕ) (l : List α), (List.enumFrom k l).map (fun ig => f ig.2) = l.map f := by
  intro k l
  induction l generalizing k with
  | nil => rfl
  | cons a t ih => simp [List.enumFrom, ih]



/-- C5 counterexample: `Repository.get_gaps` orders by the raw
severity string (`ORDER BY severity`), so a stored medium gap and low
gap come back `[low, medium]` — the low-severity gap first — while the
claimed rank `critical < high < medium < low` requires the medium gap
first (its rank 2 is below low's rank 3). -/
theorem claim_c5_counterexample :
    get_gaps_ordered [gap_no_reviews, gap_low_note] = [gap_low_note, gap_no_reviews] ∧
    severity_rank gap_no_reviews < severity_rank gap_low_note := by
  exact ⟨by decide, by decide⟩

/-- C5 amended: the report's top-N view (`_prioritize_recommendations`)
does sort stably by severity rank — the result is rank-sorted, each
rank class keeps its original order, and the view is the first ten
entries of that ordering, a pure projection of the stored list (a
permutation, no mutation); the repository's `get_gaps`, however, orders
by the severity string itself (alphabetical), which puts `low` before
`medium` (`claim_c5_counterexample`) and coincides with the claimed
rank only on gap sets without that pair. -/
theorem claim_c5_amended (gaps : List Gap) :
    List.Sorted rank_le (sort_by_rank gaps) ∧
    (∀ n, (sort_by_rank gaps).filter (fun g => severity_rank g == n) =
      gaps.filter (fun g => severity_rank g == n)) ∧
    (sort_by_rank gaps).Perm gaps ∧
    (prioritize_recommendations gaps).map (fun rec => rec.issue) =
      ((sort_by_rank gaps).take 10).map (fun g => g.description) ∧
    (prioritize_recommendations gaps).length = min 10 gaps.length ∧
    List.Sorted severity_text_le (get_gaps_ordered gaps) ∧
    (get_gaps_ordered gaps).Perm gaps := by
  refine ⟨List.sorted_insertionSort rank_le gaps, rank_filter_sort_by_rank gaps,
    List.perm_insertionSort rank_le gaps, ?_, ?_,
    List.sorted_insertionSort severity_text_le gaps,
    List.perm_insertionSort severity_text_le gaps⟩
  · unfold prioritize_recommendations
    rw [List.map_map]
    exact enum_map_snd (fun g => g.description) 0 ((sort_by_rank gaps).take 10)
  · unfold prioritize_recommendations
    rw [List.length_map, List.enum_length, List.length_take]
    have h : (sort_by_rank gaps).length = gaps.length :=
      (List.perm_insertionSort rank_le gaps).length_eq
    rw [h]



/-- C9 counterexample: on a page whose heading list is two H1s, the
source awards 10 (for `has_h1`) + 0 + 5 = 15, while the claim's wording
("10 for having exactly one H1 … a page with two or more H1s earns
neither 10-point component") yields 0 + 0 + 5 = 5. -/
theorem claim_c9_counterexample :
    arce_score_heading_hierarchy (validate_heading_hierarchy [1, 1]) = 15 ∧
    spec_score_heading_hierarchy [1, 1] = 5 ∧
    arce_score_heading_hierarchy (validate_heading_hierarchy [1, 1]) ≠
      spec_score_heading_hierarchy [1, 1] := by
  have hcount : ([1, 1] : List ℕ).count 1 = 2 := by decide
  have h1 : arce_score_heading_hierarchy (validate_heading_hierarchy [1, 1]) = 15 := by
    norm_num [arce_score_heading_hierarchy, validate_heading_hierarchy,
      skipped_pairs, hcount]
  have h2 : spec_score_heading_hierarchy [1, 1] = 5 := by
    norm_num [spec_score_heading_hierarchy, skipped_pairs, hcount]
  refine ⟨h1, h2, ?_⟩
  rw [h1, h2]
  norm_num

theorem arce_heading_value (levels : List ℕ) :
    arce_score_heading_hierarchy (validate_heading_hierarchy levels) =
      (if 1 ≤ levels.count 1 then (10 : ℚ) else 0) +
      (if levels.count 1 ≤ 1 then 10 else 0) +
      (if skipped_pairs levels = [] then 5 else 0) := by
  unfold arce_score_heading_hierarchy validate_heading_hierarchy
  dsimp only
  by_cases h1 : 1 ≤ levels.count 1 <;> by_cases h2 : levels.count 1 ≤ 1 <;>
    by_cases hs : skipped_pairs levels = [] <;>
    simp [h1, h2, hs, Nat.lt_iff_add_one_le, List.isEmpty_iff]



/-- C9 amended: the first 10 points are awarded for having at least one
H1 (not exactly one), the second 10 for not having multiple H1s, and 5
for no skipped levels; the two 10-point components are earned together
(score ≥ 20) exactly when the page has one H1, and a page with two or
more H1s still earns the has-H1 component, scoring 10 plus the
skipped-level bonus. -/
theorem claim_c9_amended (levels : List ℕ) :
    arce_score_heading_hierarchy (validate_heading_hierarchy levels) =
      (if 1 ≤ levels.count 1 then (10 : ℚ) else 0) +
      (if levels.count 1 ≤ 1 then 10 else 0) +
      (if skipped_pairs levels = [] then 5 else 0) ∧
    (20 ≤ arce_score_heading_hierarchy (validate_heading_hierarchy levels) ↔
      levels.count 1 = 1) ∧
    (2 ≤ levels.count 1 →
      arce_score_heading_hierarchy (validate_heading_hierarchy levels) =
        10 + (if skipped_pairs levels = [] then 5 else 0)) := by
  have hval := arce_heading_value levels
  refine ⟨hval, ?_, ?_⟩
  · rw [hval]
    constructor
    · intro h20
      by_contra hne
      rcases Nat.lt_or_ge (levels.count 1) 1 with hlt | hge
      · have h1 : ¬ 1 ≤ levels.count 1 := by omega
        have h2 : levels.count 1 ≤ 1 := by omega
        rw [if_neg h1, if_pos h2] at h20
        split at h20 <;> linarith
      · have h2 : ¬ levels.count 1 ≤ 1 := by omega
        have h1 : 1 ≤ levels.count 1 := by omega
        rw [if_pos h1, if_neg h2] at h20
        split at h20 <;> linarith
    · intro hone
      rw [hone]
      norm_num
      split <;> linarith
  · intro h2c
    rw [hval, if_pos (by omega : 1 ≤ levels.count 1),
      if_neg (by omega : ¬ levels.count 1 ≤ 1)]
    ring



theorem claim_c9_amended_witness :
    2 ≤ ([1, 1, 3] : List ℕ).count 1 ∧
    arce_score_heading_hierarchy (validate_heading_hierarchy [1, 1, 3]) = 10 := by
  have h := (claim_c9_amended [1, 1, 3]).2.2 (by decide)
  refine ⟨by decide, ?_⟩
  rw [h]
  have hs : skipped_pairs [1, 1, 3] = [(1, 3)] := by decide
  rw [hs]
  norm_num

/-- C10: ADE's `short_description` gap is decided solely by the length
of the Product schema's own description (recorded as
`description_length` in the details): the gap (reporting that length)
is emitted exactly when that length is under 100, even though the
attribute-richness sub-score falls back to the page's meta description
when the schema description is empty — so the gap can report a shorter
length than the text actually scored. -/
theorem claim_c10_short_description (sd : SchemaData) (hd : HtmlData)
    (p : ProductSchema) (hp : sd.product = some p) (r : AdeResult)
    (h : ade_analyze sd hd = .ok r) :
    r.descriptionLength = p.description.length ∧
    ((∃ g ∈ ade_identify_gaps r sd hd, g.gapType = "short_description") ↔
      p.description.length < 100) ∧
    (p.description.length < 100 →
      ∃ g ∈ ade_identify_gaps r sd hd, g.gapType = "short_description" ∧
        g.severity = "medium" ∧
        g.description = "Product description is too short (" ++
          toString p.description.length ++ " characters)") ∧
    (p.description = "" →
      r.attributeRichnessScore =
        calculate_richness_score hd.metaDescription 300 15 +
          ((if py_truthy sd.brandInfo then (15 : ℚ) / 2 else 0) +
           (if p.sku || p.gtin || p.mpn then (15 : ℚ) / 2 else 0))) := by
  unfold ade_analyze ade_score_attribute_richness at h
  rw [hp] at h
  simp only [Except.ok.injEq] at h
  subst h
  have hpresent : (validate_product_schema sd.product).present = true := by
    rw [hp]
    rfl
  have hmem : ∀ f, f ∈ ["name", "description", "image", "offers"] →
      "missing_field_" ++ f ≠ "short_description" := by decide
  refine ⟨rfl, ?_, ?_, ?_⟩
  · constructor
    · rintro ⟨g, hg, htype⟩
      by_cases hlen : p.description.length < 100
      · exact hlen
      · exfalso
        unfold ade_identify_gaps at hg
        simp [hp, validate_product_schema, hlen] at hg
        rcases hg with ⟨f, ⟨hf4, _, _⟩, rfl⟩ | ⟨_, rfl⟩
        · exact hmem f (by rcases hf4 with rfl | rfl | rfl | rfl <;> simp) htype
        · exact absurd htype (by decide)
    · intro hlen
      refine ⟨{ gapType := "short_description", severity := "medium"
                description := "Product description is too short (" ++
                  toString p.description.length ++ " characters)"
                recommendation := "Expand product description to at least 300 characters with detailed attributes and benefits"
                engineSource := "ADE" }, ?_, rfl⟩
      unfold ade_identify_gaps
      simp [hp, validate_product_schema, hlen]
  · intro hlen
    refine ⟨{ gapType := "short_description", severity := "medium"
              description := "Product description is too short (" ++
                toString p.description.length ++ " characters)"
              recommendation := "Expand product description to at least 300 characters with detailed attributes and benefits"
              engineSource := "ADE" }, ?_, rfl, rfl, rfl⟩
    unfold ade_identify_gaps
    simp [hp, validate_product_schema, hlen]
  · intro hdesc
    have hemp : "".isEmpty = true := by decide
    simp [hdesc, hemp]

/-- Witness for C10: `product_empty_desc` has an empty description, so
the gap reports 0 characters while richness scored the 300-character
meta description. -/
theorem claim_c10_short_description_witness :
    ade_result_example.descriptionLength = product_empty_desc.description.length ∧
    (∃ g ∈ ade_identify_gaps ade_result_example schema_with_product html_long_meta,
      g.gapType = "short_description" ∧ g.severity = "medium" ∧
      g.description = "Product description is too short (" ++
        toString product_empty_desc.description.length ++ " characters)") ∧
    ade_result_example.attributeRichnessScore =
      calculate_richness_score html_long_meta.metaDescription 300 15 +
        ((if py_truthy schema_with_product.brandInfo then (15 : ℚ) / 2 else 0) +
         (if product_empty_desc.sku || product_empty_desc.gtin || product_empty_desc.mpn
          then (15 : ℚ) / 2 else 0)) := by
  have h := claim_c10_short_description schema_with_product html_long_meta
    product_empty_desc rfl ade_result_example ade_eval_witness
  exact ⟨h.1, h.2.2.1 (by decide), h.2.2.2 rfl⟩

end Arrs
